import Mathlib

/-!
Shallow embedding of the trade-executor state-reconciliation core.

Arbitrary-precision decimals (Python `Decimal`) and USD prices are modelled
as rational numbers.  Stateful Python code is embedded as explicit state
passing; a Python `assert` or raised exception becomes an `Except.error`
whose payload carries the state as mutated so far (Python mutates objects
in place, so a caller that catches the assertion observes the partial
mutation).  Fields and helpers that live in repository files outside the
source tree (state/trade.py, state/portfolio.py, state/position.py,
state/loan.py, state/identifier.py, state/balance_update.py) are modelled
from the spec and marked as such in their doc comments.
-/

namespace TradeExec

/-- Modelled from the spec: `AssetType` of state/identifier.py (not in the
source tree); spec section 3 lists `type` (token/collateral/borrowed). -/
inductive AssetType where
  | token
  | collateral
  | borrowed
deriving DecidableEq, Repr

/-- Modelled from the spec: `AssetIdentifier` of state/identifier.py (not in
the source tree).  Spec section 3: chain id, contract address, optional
underlying, and type; equality by (chain_id, address).  The underlying
pricing asset is flattened to the boolean `pricing_stablecoin`
(is_stablecoin of `get_pricing_asset()`). -/
structure AssetIdentifier where
  chain_id : Nat
  address : String
  kind : AssetType := .token
  pricing_stablecoin : Bool := false
deriving DecidableEq, Repr

/-- Modelled from the spec: `is_interest_accruing` of state/identifier.py
(not in the source tree).  aToken (collateral) and vToken (borrowed)
balances grow over time via interest (spec glossary). -/
def AssetIdentifier.is_interest_accruing (a : AssetIdentifier) : Bool :=
  a.kind = AssetType.collateral || a.kind = AssetType.borrowed

/-- Modelled from the spec: `TradingPairKind` of state/identifier.py (not in
the source tree); spec section 3: spot / credit_supply /
lending_protocol_short. -/
inductive TradingPairKind where
  | spot
  | credit_supply
  | lending_protocol_short
deriving DecidableEq, Repr

/-- Modelled from the spec: `TradingPairIdentifier` of state/identifier.py
(not in the source tree), reduced to the fields the embedded code reads. -/
structure TradingPairIdentifier where
  base : AssetIdentifier
  quote : AssetIdentifier
  kind : TradingPairKind := .spot
deriving DecidableEq, Repr

end TradeExec

namespace TradeExec.Repair

/-- Embedding of `TradeType` from state/trade.py (not in the source tree);
state/repair.py uses the `repair` member for counter trades. -/
inductive TradeType where
  | rebalance
  | repair
deriving DecidableEq, Repr

/-- Embedding of the stored `TradeStatus` from state/trade.py (not in the
source tree); spec section 4.1 gives the state machine.  The `repaired`
status is derived from `repaired_at` by `get_status`, not stored. -/
inductive TradeStatus where
  | planned
  | broadcasted
  | success
  | failed
  | repaired
deriving DecidableEq, Repr

/-- Modelled from the spec: `TradeExecution` of state/trade.py (not in the
source tree), reduced to the fields read by state/repair.py. -/
structure TradeExecution where
  trade_id : Nat
  position_id : Nat
  pair : TradingPairIdentifier
  planned_quantity : ℚ
  planned_price : ℚ
  trade_type : TradeType := .rebalance
  status : TradeStatus := .planned
  executed_at : Option Nat := none
  executed_price : ℚ := 0
  executed_quantity : ℚ := 0
  executed_reserve : ℚ := 0
  lp_fees_paid : ℚ := 0
  repaired_at : Option Nat := none
  repaired_trade_id : Option Nat := none
deriving DecidableEq, Repr

/-- Modelled from the spec: `get_status` of state/trade.py (not in the source
tree).  A trade whose `repaired_at` is set reports status `repaired`
(spec section 4.1: the original trade is tagged repaired_at). -/
def TradeExecution.get_status (t : TradeExecution) : TradeStatus :=
  if t.repaired_at.isSome then TradeStatus.repaired else t.status

/-- Modelled from the spec: `get_value` of state/trade.py (not in the source
tree).  Spec section 4.1: a trade contributes zero value whenever its status
is failed or repaired; a successful trade is valued from its executed
quantity and price. -/
def TradeExecution.get_value (t : TradeExecution) : ℚ :=
  match t.get_status with
  | TradeStatus.success => |t.executed_quantity| * t.executed_price
  | _ => 0

/-- Modelled from the spec: `get_position_quantity` of state/trade.py (not in
the source tree).  Spec section 4.1: only success trades count toward live
quantity; failed and repaired trades contribute exactly zero. -/
def TradeExecution.get_position_quantity (t : TradeExecution) : ℚ :=
  match t.get_status with
  | TradeStatus.success => t.executed_quantity
  | _ => 0

/-- Modelled from the spec: `is_success` of state/trade.py (not in the source
tree). -/
def TradeExecution.is_success (t : TradeExecution) : Bool :=
  t.get_status = TradeStatus.success

/-- Modelled from the spec: `mark_success` of state/trade.py (not in the
source tree).  Populates execution-level fields and moves the trade to the
success state (spec section 4.1). -/
def TradeExecution.mark_success (t : TradeExecution) (executed_at : Nat)
    (executed_price executed_quantity executed_reserve lp_fees_paid : ℚ) :
    TradeExecution :=
  { t with
    status := TradeStatus.success
    executed_at := some executed_at
    executed_price := executed_price
    executed_quantity := executed_quantity
    executed_reserve := executed_reserve
    lp_fees_paid := lp_fees_paid }

/-- Modelled from the spec: `is_repair_needed` of state/trade.py (not in the
source tree).  Spec section 4.4: a trade needs repair if it was broadcast
but never resolved, or resolved to failure and has not been compensated. -/
def TradeExecution.is_repair_needed (t : TradeExecution) : Bool :=
  t.repaired_at.isNone &&
    (t.status = TradeStatus.broadcasted || t.status = TradeStatus.failed)

/-- Modelled from the spec: `TradingPosition` of state/position.py (not in
the source tree), reduced to the fields read by state/repair.py. -/
structure TradingPosition where
  position_id : Nat
  pair : TradingPairIdentifier
  trades : List TradeExecution := []
deriving DecidableEq, Repr

/-- Modelled from the spec: `Portfolio` of state/portfolio.py (not in the
source tree): collections of open and frozen positions plus the trade id
counter used by `create_trade`. -/
structure Portfolio where
  open_positions : List TradingPosition := []
  frozen_positions : List TradingPosition := []
  next_trade_id : Nat := 1
deriving DecidableEq, Repr

/-- Helper: all open and frozen positions, in iteration order of
state/repair.py (open first, then frozen). -/
def Portfolio.open_and_frozen (pf : Portfolio) : List TradingPosition :=
  pf.open_positions ++ pf.frozen_positions

/-- Modelled from the spec: `get_position_by_id` of state/portfolio.py (not
in the source tree). -/
def Portfolio.get_position_by_id (pf : Portfolio) (pid : Nat) :
    Option TradingPosition :=
  pf.open_and_frozen.find? (fun p => p.position_id = pid)

/-- Helper: rewrite a position inside the portfolio by id (Python mutates
the position object in place; the embedding rewrites it in both lists). -/
def Portfolio.update_position (pf : Portfolio) (pid : Nat)
    (f : TradingPosition → TradingPosition) : Portfolio :=
  { pf with
    open_positions :=
      pf.open_positions.map (fun p => if p.position_id = pid then f p else p)
    frozen_positions :=
      pf.frozen_positions.map (fun p => if p.position_id = pid then f p else p) }

/-- Modelled from the spec: the slice of `Portfolio.create_trade`
(state/portfolio.py, not in the source tree) exercised by
`make_counter_trade`: allocate a trade id, build the planned trade on the
supplied existing position and append it there; `created` is false because
the position already exists. -/
def Portfolio.create_trade (pf : Portfolio) (p : TradingPosition)
    (quantity assumed_price : ℚ) (trade_type : TradeType)
    (strategy_cycle_at : Nat) : Portfolio × TradeExecution :=
  let t : TradeExecution :=
    { trade_id := pf.next_trade_id
      position_id := p.position_id
      pair := p.pair
      planned_quantity := quantity
      planned_price := assumed_price
      trade_type := trade_type }
  let _ := strategy_cycle_at
  let pf := { pf with next_trade_id := pf.next_trade_id + 1 }
  let pf := pf.update_position p.position_id
    (fun q => { q with trades := q.trades ++ [t] })
  (pf, t)

/-- Embedding of `make_counter_trade` (state/repair.py): create a virtual
trade with the negated planned quantity at the planned price, mark it
immediately executed-successful with zero deltas, and check the zeroing
assertions.  The counter trade is stored marked-successful on the position
(Python appends the object and then mutates it in place). -/
def make_counter_trade (pf : Portfolio) (p : TradingPosition)
    (t : TradeExecution) (now : Nat) :
    Except String (Portfolio × TradeExecution) :=
  let base : TradeExecution :=
    { trade_id := pf.next_trade_id
      position_id := p.position_id
      pair := t.pair
      planned_quantity := -t.planned_quantity
      planned_price := t.planned_price
      trade_type := TradeType.repair }
  let counter_trade := base.mark_success now t.planned_price 0 0 0
  let pf := { pf with next_trade_id := pf.next_trade_id + 1 }
  let pf := pf.update_position p.position_id
    (fun q => { q with trades := q.trades ++ [counter_trade] })
  if counter_trade.is_success = false then
    Except.error "counter trade not success"
  else if counter_trade.get_value ≠ 0 then
    Except.error "counter trade has value"
  else if counter_trade.get_position_quantity ≠ 0 then
    Except.error "counter trade has quantity"
  else if counter_trade.trade_type ≠ TradeType.repair then
    Except.error "counter trade wrong type"
  else
    Except.ok (pf, counter_trade)

/-- Embedding of `repair_trade` (state/repair.py): make a counter trade,
stamp `repaired_at` on the original trade, link the counter trade to it,
and check the post-repair zeroing assertions. -/
def repair_trade (pf : Portfolio) (t : TradeExecution) (now : Nat) :
    Except String (Portfolio × TradeExecution) :=
  match pf.get_position_by_id t.position_id with
  | none => Except.error "position not found"
  | some p =>
    match make_counter_trade pf p t now with
    | Except.error e => Except.error e
    | Except.ok (pf, c) =>
      let repaired : TradeExecution := { t with repaired_at := some now }
      let c := { c with repaired_trade_id := some t.trade_id }
      let pf := pf.update_position t.position_id (fun q =>
        { q with trades := q.trades.map (fun u =>
            if u.trade_id = t.trade_id then { u with repaired_at := some now }
            else if u.trade_id = c.trade_id then c
            else u) })
      if repaired.get_status ≠ TradeStatus.repaired then
        Except.error "original trade not repaired"
      else if repaired.get_value ≠ 0 then
        Except.error "original trade has value"
      else if repaired.get_position_quantity ≠ 0 then
        Except.error "original trade has quantity"
      else if t.planned_quantity = 0 then
        Except.error "zero planned quantity"
      else
        Except.ok (pf, c)

/-- Embedding of `find_trades_to_be_repaired` (state/repair.py): every trade
of every open or frozen position whose `is_repair_needed` flag is set. -/
def find_trades_to_be_repaired (pf : Portfolio) : List TradeExecution :=
  (pf.open_and_frozen.flatMap (fun p => p.trades)).filter
    (fun t => t.is_repair_needed)

/-- Embedding of `unfreeze_position` (state/repair.py): the body of the
source function is a bare `pass` statement, so it always returns Python
`None` (falsy) regardless of the position. -/
def unfreeze_position (_position : TradingPosition) : Option Bool :=
  none

/-- Embedding of `RepairResult` (state/repair.py). -/
structure RepairResult where
  frozen_positions : List TradingPosition
  unfrozen_positions : List TradingPosition
  trades_needing_repair : List TradeExecution
  new_trades : List TradeExecution
deriving DecidableEq, Repr

/-- Helper: the repair loop of `repair_trades`, threading the portfolio
through `repair_trade` for each trade needing repair. -/
def repair_all (pf : Portfolio) (ts : List TradeExecution) (now : Nat) :
    Except String (Portfolio × List TradeExecution) :=
  match ts with
  | [] => Except.ok (pf, [])
  | t :: rest =>
    match repair_trade pf t now with
    | Except.error e => Except.error e
    | Except.ok (pf, c) =>
      match repair_all pf rest now with
      | Except.error e => Except.error e
      | Except.ok (pf, cs) => Except.ok (pf, c :: cs)

/-- Embedding of `repair_trades` (state/repair.py).  The interactive
confirmation prompt is passed in as the `confirmation` argument; with
`interactive = false` it is never consulted. -/
def repair_trades (pf : Portfolio) (attempt_repair interactive : Bool)
    (confirmation : String) (now : Nat) :
    Except String (Portfolio × RepairResult) :=
  let frozen_positions := pf.frozen_positions
  let trades_to_be_repaired := find_trades_to_be_repaired pf
  if trades_to_be_repaired.length = 0 || attempt_repair = false then
    Except.ok (pf,
      { frozen_positions := frozen_positions
        unfrozen_positions := []
        trades_needing_repair := trades_to_be_repaired
        new_trades := [] })
  else if interactive && confirmation ≠ "y" then
    Except.error "RepairAborted"
  else
    match repair_all pf trades_to_be_repaired now with
    | Except.error e => Except.error e
    | Except.ok (pf, new_trades) =>
      let unfrozen_positions := frozen_positions.filter
        (fun p => unfreeze_position p = some true)
      Except.ok (pf,
        { frozen_positions := frozen_positions
          unfrozen_positions := unfrozen_positions
          trades_needing_repair := trades_to_be_repaired
          new_trades := new_trades })

end TradeExec.Repair

namespace TradeExec.Vault

/-- Embedding of `BalanceUpdateType` from state/balance_update.py (not in
the source tree); ethereum/enzyme/vault.py uses `deposit` and
`redemption`. -/
inductive BalanceUpdateType where
  | deposit
  | redemption
deriving DecidableEq, Repr

/-- Embedding of `BalanceUpdatePositionType` from state/balance_update.py
(not in the source tree); ethereum/enzyme/vault.py uses `reserve` and
`open_position`. -/
inductive BalanceUpdatePositionType where
  | reserve
  | open_position
deriving DecidableEq, Repr

/-- Embedding of `BalanceUpdate` as constructed by ethereum/enzyme/vault.py
(field list taken from the constructor calls there; the class itself lives
in state/balance_update.py, not in the source tree). -/
structure BalanceUpdate where
  balance_update_id : Nat
  position_type : BalanceUpdatePositionType
  update_type : BalanceUpdateType
  asset : AssetIdentifier
  block_mined_at : Nat
  chain_id : Nat
  past_quantity : ℚ
  new_quantity : ℚ
  owner_address : String
  tx_hash : String
  log_index : Nat
  position_id : Option Nat
deriving DecidableEq, Repr

/-- Modelled from the spec: the hash / equality key of `BalanceUpdate`
(state/balance_update.py, not in the source tree) used by the
`new_event not in past_events` collision check of `sync_treasury`.  Spec
section 4.2 step 4 calls it the event id collision check against reorg
replay; a replayed event carries the same chain provenance (chain id,
transaction hash, log index) while the freshly allocated
`balance_update_id` always differs, so the provenance triple is the key. -/
def BalanceUpdate.collision_key (e : BalanceUpdate) : Nat × String × Nat :=
  (e.chain_id, e.tx_hash, e.log_index)

/-- Modelled from the spec: `ReservePosition` of state/reserve.py (not in
the source tree), reduced to the fields read by ethereum/enzyme/vault.py. -/
structure ReservePosition where
  asset : AssetIdentifier
  quantity : ℚ
  reserve_token_price : ℚ := 1
  last_pricing_at : Option Nat := none
  last_sync_at : Option Nat := none
  balance_updates : List Nat := []
deriving DecidableEq, Repr

/-- Modelled from the spec: the slice of `TradingPosition`
(state/position.py, not in the source tree) read by the redemption path of
ethereum/enzyme/vault.py: id, the held asset, quantity and the balance
update reference list. -/
structure TradingPosition where
  position_id : Nat
  asset : AssetIdentifier
  quantity : ℚ
  balance_updates : List Nat := []
deriving DecidableEq, Repr

/-- Modelled from the spec: `Portfolio` of state/portfolio.py (not in the
source tree), reduced to what ethereum/enzyme/vault.py reads: the reserve
positions keyed by asset address (spec: exactly one reserve asset at a
time), the open trading positions, and the monotonic
`next_balance_update_id` counter. -/
structure Portfolio where
  reserves : List ReservePosition := []
  open_positions : List TradingPosition := []
  next_balance_update_id : Nat := 1
deriving DecidableEq, Repr

/-- Modelled from the spec: the `portfolio.reserves.get(asset.address)`
dictionary lookup of `get_related_position` (reserves are keyed by
address). -/
def Portfolio.get_reserve_by_address (pf : Portfolio) (a : AssetIdentifier) :
    Option ReservePosition :=
  pf.reserves.find? (fun r => r.asset.address = a.address)

/-- Modelled from the spec: `get_open_position_for_asset` of
state/portfolio.py (not in the source tree): the first open trading
position holding the asset (the spec notes at most one open position per
asset is assumed). -/
def Portfolio.get_open_position_for_asset (pf : Portfolio)
    (a : AssetIdentifier) : Option TradingPosition :=
  pf.open_positions.find? (fun p => p.asset = a)

/-- Helper: rewrite the first list element satisfying the predicate (the
embedding of a Python in-place mutation of the object returned by a
find). -/
def updateFirst {α : Type} (pred : α → Bool) (f : α → α) :
    List α → List α
  | [] => []
  | x :: xs => if pred x then f x :: xs else x :: updateFirst pred f xs

/-- Embedding of the Enzyme `Deposit` event (eth_defi collaborator), with
`translate_token_details` folded into the already-translated asset and the
raw token amount already converted to a decimal quantity. -/
structure Deposit where
  denomination_token : AssetIdentifier
  investment_amount : ℚ
  receiver : String
  timestamp : Nat
  tx_hash : String
  log_index : Nat
deriving DecidableEq, Repr

/-- Embedding of the Enzyme `Redemption` event (eth_defi collaborator):
the redeemed assets with their decimal quantities. -/
structure Redemption where
  redeemed_assets : List (AssetIdentifier × ℚ)
  redeemer : String
  timestamp : Nat
  tx_hash : String
  log_index : Nat
deriving DecidableEq, Repr

/-- Embedding of `EnzymeBalanceEvent` (eth_defi collaborator): the sum of
the two event kinds `sync_treasury` processes. -/
inductive EnzymeBalanceEvent where
  | deposit (d : Deposit)
  | redemption (r : Redemption)
deriving DecidableEq, Repr

/-- Embedding of the result of `get_related_position`
(ethereum/enzyme/vault.py): a redemption asset resolves to either the
reserve position or an open trading position. -/
inductive RelatedPosition where
  | reserve (r : ReservePosition)
  | trading (p : TradingPosition)
deriving DecidableEq, Repr

/-- Embedding of `get_related_position` (ethereum/enzyme/vault.py): try the
reserve dictionary by address, then an open position holding the asset,
else raise `UnknownAsset`. -/
def get_related_position (pf : Portfolio) (a : AssetIdentifier) :
    Except String RelatedPosition :=
  if pf.reserves.length ≠ 1 then Except.error "Safety check"
  else
    match pf.get_reserve_by_address a with
    | some r => Except.ok (RelatedPosition.reserve r)
    | none =>
      match pf.get_open_position_for_asset a with
      | some p => Except.ok (RelatedPosition.trading p)
      | none => Except.error "UnknownAsset"

/-- Modelled from the spec: `initialise_reserves` of state/portfolio.py (not
in the source tree): the reserve asset is initialised on the first-ever
deposit with zero quantity (spec section 4.2 step 3). -/
def Portfolio.initialise_reserves (pf : Portfolio) (a : AssetIdentifier) :
    Portfolio :=
  { pf with reserves := [{ asset := a, quantity := 0 }] }

/-- Embedding of `process_deposit` (ethereum/enzyme/vault.py): initialise
the reserve on first deposit or check the asset matches the reserve asset,
then increase the reserve quantity by the investment amount and record one
deposit `BalanceUpdate`.  The exchange rate read from the vault collaborator
is passed in. -/
def process_deposit (pf : Portfolio) (event : Deposit) (exchange_rate : ℚ)
    (now : Nat) : Except (String × Portfolio) (Portfolio × BalanceUpdate) :=
  let asset := event.denomination_token
  let pf0 := pf
  match
    (if pf.reserves.length = 0 then
      Except.ok (pf.initialise_reserves asset)
    else
      match pf.reserves with
      | r :: _ =>
        if asset = r.asset then Except.ok pf
        else Except.error ("deposit asset does not match reserve", pf0)
      | [] => Except.error ("no reserve", pf0)) with
  | Except.error e => Except.error e
  | Except.ok pf =>
    match pf.get_reserve_by_address asset with
    | none => Except.error ("no reserve position", pf)
    | some reserve_position =>
      let past_balance := reserve_position.quantity
      let new_balance := reserve_position.quantity + event.investment_amount
      let event_id := pf.next_balance_update_id
      let pf := { pf with next_balance_update_id := event_id + 1 }
      let pf := { pf with reserves := (updateFirst
        (fun r => r.asset.address = asset.address)
        (fun r => { r with
          reserve_token_price := exchange_rate
          last_pricing_at := some now
          last_sync_at := some now
          quantity := r.quantity + event.investment_amount
          balance_updates := r.balance_updates ++ [event_id] })
        pf.reserves) }
      Except.ok (pf,
        { balance_update_id := event_id
          position_type := BalanceUpdatePositionType.reserve
          update_type := BalanceUpdateType.deposit
          asset := asset
          block_mined_at := event.timestamp
          chain_id := asset.chain_id
          past_quantity := past_balance
          new_quantity := new_balance
          owner_address := event.receiver
          tx_hash := event.tx_hash
          log_index := event.log_index
          position_id := none })

/-- Embedding of the loop body of `process_redemption`
(ethereum/enzyme/vault.py) for one redeemed asset: resolve the holder,
allocate the event id, decrement the holder quantity, then assert the
remaining quantity is strictly positive (the decrement has already been
applied when the assertion fires), and emit one redemption
`BalanceUpdate`. -/
def process_redeemed_asset (pf : Portfolio) (a : AssetIdentifier) (q : ℚ)
    (event : Redemption) :
    Except (String × Portfolio) (Portfolio × BalanceUpdate) :=
  match get_related_position pf a with
  | Except.error msg => Except.error (msg, pf)
  | Except.ok rel =>
    let event_id := pf.next_balance_update_id
    let pf := { pf with next_balance_update_id := event_id + 1 }
    match rel with
    | RelatedPosition.reserve r =>
      let past_balance := r.quantity
      let new_balance := r.quantity - q
      let pf := { pf with reserves := (updateFirst
        (fun s => s.asset.address = a.address)
        (fun s => { s with
          quantity := s.quantity - q
          balance_updates := s.balance_updates ++ [event_id] })
        pf.reserves) }
      if new_balance ≤ 0 then
        Except.error ("Position went to negative", pf)
      else
        Except.ok (pf,
          { balance_update_id := event_id
            position_type := BalanceUpdatePositionType.reserve
            update_type := BalanceUpdateType.redemption
            asset := a
            block_mined_at := event.timestamp
            chain_id := a.chain_id
            past_quantity := past_balance
            new_quantity := new_balance
            owner_address := event.redeemer
            tx_hash := event.tx_hash
            log_index := event.log_index
            position_id := none })
    | RelatedPosition.trading p =>
      let past_balance := p.quantity
      let new_balance := p.quantity - q
      let pf := { pf with open_positions := (updateFirst
        (fun s => s.asset = a)
        (fun s => { s with
          quantity := s.quantity - q
          balance_updates := s.balance_updates ++ [event_id] })
        pf.open_positions) }
      if new_balance ≤ 0 then
        Except.error ("Position went to negative", pf)
      else
        Except.ok (pf,
          { balance_update_id := event_id
            position_type := BalanceUpdatePositionType.open_position
            update_type := BalanceUpdateType.redemption
            asset := a
            block_mined_at := event.timestamp
            chain_id := a.chain_id
            past_quantity := past_balance
            new_quantity := new_balance
            owner_address := event.redeemer
            tx_hash := event.tx_hash
            log_index := event.log_index
            position_id := some p.position_id })

/-- Helper: the redeemed-assets loop of `process_redemption`, threading the
portfolio and accumulating one event per asset. -/
def process_redeemed_assets (pf : Portfolio)
    (assets : List (AssetIdentifier × ℚ)) (event : Redemption) :
    Except (String × Portfolio) (Portfolio × List BalanceUpdate) :=
  match assets with
  | [] => Except.ok (pf, [])
  | (a, q) :: rest =>
    match process_redeemed_asset pf a q event with
    | Except.error e => Except.error e
    | Except.ok (pf, evt) =>
      match process_redeemed_assets pf rest event with
      | Except.error e => Except.error e
      | Except.ok (pf, evts) => Except.ok (pf, evt :: evts)

/-- Embedding of `process_redemption` (ethereum/enzyme/vault.py). -/
def process_redemption (pf : Portfolio) (event : Redemption) :
    Except (String × Portfolio) (Portfolio × List BalanceUpdate) :=
  process_redeemed_assets pf event.redeemed_assets event

/-- Embedding of `translate_and_apply_event` (ethereum/enzyme/vault.py):
a deposit yields one balance update, a redemption possibly several. -/
def translate_and_apply_event (pf : Portfolio) (event : EnzymeBalanceEvent)
    (exchange_rate : ℚ) (now : Nat) :
    Except (String × Portfolio) (Portfolio × List BalanceUpdate) :=
  match event with
  | EnzymeBalanceEvent.deposit d =>
    match process_deposit pf d exchange_rate now with
    | Except.error e => Except.error e
    | Except.ok (pf, evt) => Except.ok (pf, [evt])
  | EnzymeBalanceEvent.redemption r => process_redemption pf r

/-- Embedding of the event application loop of `sync_treasury`
(`events += self.translate_and_apply_event(state, chain_event)`). -/
def apply_balance_events (pf : Portfolio) (events : List EnzymeBalanceEvent)
    (exchange_rate : ℚ) (now : Nat) :
    Except (String × Portfolio) (Portfolio × List BalanceUpdate) :=
  match events with
  | [] => Except.ok (pf, [])
  | ev :: rest =>
    match translate_and_apply_event pf ev exchange_rate now with
    | Except.error e => Except.error e
    | Except.ok (pf, evts) =>
      match apply_balance_events pf rest exchange_rate now with
      | Except.error e => Except.error e
      | Except.ok (pf, evts2) => Except.ok (pf, evts ++ evts2)

/-- Modelled from the spec: the treasury slice of the sync state
(state/sync.py, not in the source tree): last scanned block, processed
events dictionary keyed by balance update id, and the bookkeeping
timestamps of spec section 4.2 step 5. -/
structure TreasurySync where
  last_block_scanned : Option Nat := none
  processed_events : List (Nat × BalanceUpdate) := []
  last_updated_at : Option Nat := none
  last_cycle_at : Option Nat := none
deriving DecidableEq, Repr

/-- Modelled from the spec: the sync checkpoint state (state/sync.py, not in
the source tree): the initialisation flag checked by `sync_treasury`, the
deployment block recorded by `sync_initial`, and the treasury slice. -/
structure SyncState where
  initialised : Bool := false
  deployment_block : Nat := 1
  treasury : TreasurySync := {}
deriving DecidableEq, Repr

/-- Embedding of the strategy state slice that `sync_treasury` touches. -/
structure VaultState where
  portfolio : Portfolio := {}
  sync : SyncState := {}
deriving DecidableEq, Repr

/-- Embedding of the duplicate-event loop of `sync_treasury`: the snapshot
of already-processed events is taken before the loop, each new event is
asserted not to collide with it, and the surviving events are inserted into
the processed dictionary keyed by balance update id.  On a collision the
error carries the insertions made so far. -/
def record_processed_events (past : List BalanceUpdate)
    (processed : List (Nat × BalanceUpdate)) (events : List BalanceUpdate) :
    Except (String × List (Nat × BalanceUpdate))
      (List (Nat × BalanceUpdate)) :=
  match events with
  | [] => Except.ok processed
  | e :: rest =>
    if past.any (fun old => old.collision_key = e.collision_key) then
      Except.error ("Event already processed", processed)
    else
      record_processed_events past (processed ++ [(e.balance_update_id, e)])
        rest

/-- Embedding of `sync_treasury` (ethereum/enzyme/vault.py).  The chunked
event reader is an external collaborator: the events it returns for the
scan window and the chain head block number are passed in.  The scan window
start is computed as in the source; reading is outside the embedding.  All
fetched events are translated and applied to the portfolio first, then the
collision check runs over the already-applied events, then the checkpoint
fields are recorded. -/
def sync_treasury (s : VaultState) (fetched : List EnzymeBalanceEvent)
    (end_block : Nat) (exchange_rate : ℚ) (now strategy_cycle_ts : Nat) :
    Except (String × VaultState) (VaultState × List BalanceUpdate) :=
  if s.sync.initialised = false then
    Except.error ("Vault sync not initialised", s)
  else
    let treasury_sync := s.sync.treasury
    let _start_block : Nat :=
      match treasury_sync.last_block_scanned with
      | some b => b + 1
      | none => s.sync.deployment_block
    match apply_balance_events s.portfolio fetched exchange_rate now with
    | Except.error (msg, pf) =>
      Except.error (msg, { s with portfolio := pf })
    | Except.ok (pf, events) =>
      let past_events := treasury_sync.processed_events.map (fun kv => kv.2)
      match record_processed_events past_events
          treasury_sync.processed_events events with
      | Except.error (msg, processed) =>
        Except.error (msg, { s with
          portfolio := pf
          sync := { s.sync with treasury :=
            { treasury_sync with processed_events := processed } } })
      | Except.ok processed =>
        Except.ok ({ s with
          portfolio := pf
          sync := { s.sync with treasury :=
            { treasury_sync with
              processed_events := processed
              last_block_scanned := some end_block
              last_updated_at := some now
              last_cycle_at := some strategy_cycle_ts } } }, events)

end TradeExec.Vault

namespace TradeExec.InterestSync

/-- Embedding of `BalanceUpdateCause` from state/balance_update.py (not in
the source tree); strategy/interest.py uses the `interest` member. -/
inductive BalanceUpdateCause where
  | deposit
  | redemption
  | interest
deriving DecidableEq, Repr

/-- Embedding of `BalanceUpdatePositionType` as used by
strategy/interest.py. -/
inductive PositionType where
  | reserve
  | open_position
deriving DecidableEq, Repr

/-- Embedding of `BalanceUpdate` as constructed by `update_interest`
(strategy/interest.py); the class itself lives in state/balance_update.py,
not in the source tree. -/
structure BalanceUpdate where
  balance_update_id : Nat
  position_type : PositionType
  cause : BalanceUpdateCause
  asset : AssetIdentifier
  block_mined_at : Nat
  chain_id : Nat
  old_balance : ℚ
  usd_value : ℚ
  quantity : ℚ
  position_id : Nat
  block_number : Option Nat
  previous_update_at : Option Nat
deriving DecidableEq, Repr

/-- Modelled from the spec: `Interest` tracker of state/interest.py (not in
the source tree); spec section 3 lists opening_amount, last_token_amount,
last_accrued_interest and the update stamps. -/
structure Interest where
  opening_amount : ℚ
  last_token_amount : ℚ
  last_accrued_interest : ℚ := 0
  last_updated_at : Nat := 0
  last_event_at : Nat := 0
  last_updated_block_number : Option Nat := none
deriving DecidableEq, Repr

/-- Modelled from the spec: `AssetWithTrackedValue` of state/identifier.py
(not in the source tree): asset plus tracked quantity and last USD
price. -/
structure AssetWithTrackedValue where
  asset : AssetIdentifier
  quantity : ℚ
  last_usd_price : ℚ := 1
deriving DecidableEq, Repr

/-- Embedding of `LoanSide` from state/loan.py (not in the source tree). -/
inductive LoanSide where
  | collateral
  | borrowed
deriving DecidableEq, Repr

/-- Modelled from the spec: `Loan` of state/loan.py (not in the source
tree): a collateral tracker with its interest tracker, and an optional
borrowed tracker with its interest tracker. -/
structure Loan where
  collateral : AssetWithTrackedValue
  collateral_interest : Interest
  borrowed : Option AssetWithTrackedValue := none
  borrowed_interest : Option Interest := none
deriving DecidableEq, Repr

/-- Modelled from the spec: `get_tracked_asset` of state/loan.py (not in the
source tree): which side of the loan tracks the asset, if any. -/
def Loan.get_tracked_asset (loan : Loan) (a : AssetIdentifier) :
    Option (LoanSide × AssetWithTrackedValue) :=
  if loan.collateral.asset = a then
    some (LoanSide.collateral, loan.collateral)
  else
    match loan.borrowed with
    | some b =>
      if b.asset = a then some (LoanSide.borrowed, b) else none
    | none => none

/-- Modelled from the spec: position status of state/position.py (not in
the source tree). -/
inductive PositionStatus where
  | open_status
  | frozen
  | closed
deriving DecidableEq, Repr

/-- Modelled from the spec: the slice of `TradingPosition`
(state/position.py, not in the source tree) read by strategy/interest.py:
id, pair, optional loan, status and the applied balance update events. -/
structure TradingPosition where
  position_id : Nat
  pair : TradingPairIdentifier
  loan : Option Loan := none
  status : PositionStatus := .open_status
  balance_update_events : List BalanceUpdate := []
deriving DecidableEq, Repr

/-- Modelled from the spec: `is_long` of state/position.py (not in the
source tree): a plain spot pair position is long; credit supply and
lending-protocol short positions are not. -/
def TradingPosition.is_long (p : TradingPosition) : Bool :=
  p.pair.kind = TradingPairKind.spot

/-- Modelled from the spec: `calculate_accrued_interest_quantity` of
state/position.py (not in the source tree): the sum of the quantities of
the interest-cause balance update events recorded for the asset. -/
def TradingPosition.calculate_accrued_interest_quantity
    (p : TradingPosition) (a : AssetIdentifier) : ℚ :=
  ((p.balance_update_events.filter (fun e =>
    decide (e.cause = BalanceUpdateCause.interest) && decide (e.asset = a))).map
      (fun e => e.quantity)).sum

/-- Modelled from the spec: the portfolio slice strategy/interest.py reads:
all positions (with their status) and the monotonic balance update id
counter allocated by `allocate_balance_update_id`. -/
structure IPortfolio where
  positions : List TradingPosition := []
  next_balance_update_id : Nat := 1
deriving DecidableEq, Repr

/-- Modelled from the spec: `get_open_and_frozen_positions` of
state/portfolio.py (not in the source tree). -/
def IPortfolio.get_open_and_frozen_positions (pf : IPortfolio) :
    List TradingPosition :=
  pf.positions.filter (fun p =>
    decide (p.status = PositionStatus.open_status) ||
      decide (p.status = PositionStatus.frozen))

/-- Embedding of the strategy state slice touched by strategy/interest.py:
the portfolio plus the interest sync checkpoint
(`state.sync.interest`). -/
structure IState where
  portfolio : IPortfolio := {}
  interest_sync_assets : List (AssetIdentifier × ℚ) := []
  last_sync_at : Option Nat := none
  last_sync_block : Option Nat := none
deriving DecidableEq, Repr

/-- Helper: Python `Counter` lookup — a missing key reads as zero. -/
def counterGet (l : List (AssetIdentifier × ℚ)) (a : AssetIdentifier) : ℚ :=
  match l.find? (fun kv => kv.1 = a) with
  | some kv => kv.2
  | none => 0

/-- Helper: Python `Counter` increment — add to an existing key or append
a new one. -/
def counterAdd (l : List (AssetIdentifier × ℚ)) (a : AssetIdentifier)
    (q : ℚ) : List (AssetIdentifier × ℚ) :=
  if l.any (fun kv => kv.1 = a) then
    l.map (fun kv => if kv.1 = a then (kv.1, kv.2 + q) else kv)
  else
    l ++ [(a, q)]

/-- Helper: replace a position (by id) inside the portfolio, embedding a
Python in-place mutation of the position object. -/
def IPortfolio.set_position (pf : IPortfolio) (p : TradingPosition) :
    IPortfolio :=
  { pf with positions := pf.positions.map (fun q =>
      if q.position_id = p.position_id then p else q) }

/-- Helper: write back the interest tracker for the given loan side. -/
def Loan.set_interest (loan : Loan) (side : LoanSide) (i : Interest) :
    Loan :=
  match side with
  | LoanSide.collateral => { loan with collateral_interest := i }
  | LoanSide.borrowed => { loan with borrowed_interest := some i }

/-- Embedding of `update_interest` (strategy/interest.py): allocate a
balance update id, compute the gained interest against the tracked token
amount, assert it is plausible, append the interest `BalanceUpdate` to the
position and refresh the interest tracker statistics.  The position is
named by id; the assertion error carries the state as mutated so far (the
id counter is bumped before the assertion, as in the source). -/
def update_interest (st : IState) (position_id : Nat) (a : AssetIdentifier)
    (new_token_amount : ℚ) (event_at : Nat) (asset_price : ℚ)
    (block_number : Option Nat) :
    Except (String × IState) (IState × BalanceUpdate) :=
  match st.portfolio.positions.find? (fun p => p.position_id = position_id) with
  | none => Except.error ("position not found", st)
  | some position =>
    if decide (position.status = PositionStatus.open_status) ||
        decide (position.status = PositionStatus.frozen) then
      match position.loan with
      | none => Except.error ("position has no loan", st)
      | some loan =>
        match
          (if a = loan.collateral.asset then
            Except.ok (LoanSide.collateral, loan.collateral_interest)
          else
            match loan.borrowed with
            | some b =>
              if a = b.asset then
                match loan.borrowed_interest with
                | some i => Except.ok (LoanSide.borrowed, i)
                | none =>
                  Except.error ("Position does not have interest tracked", st)
              else Except.error ("Loan does not have asset", st)
            | none => Except.error ("Loan does not have asset", st)) with
        | Except.error e => Except.error e
        | Except.ok (side, interest) =>
          let event_id := st.portfolio.next_balance_update_id
          let st := { st with portfolio :=
            { st.portfolio with next_balance_update_id := event_id + 1 } }
          let previous_update_at := interest.last_event_at
          let old_balance := interest.last_token_amount
          let gained_interest := new_token_amount - old_balance
          let usd_value := new_token_amount * asset_price
          if decide (0 < |gained_interest|) && decide (|gained_interest| < 999)
          then
            let evt : BalanceUpdate :=
              { balance_update_id := event_id
                position_type := PositionType.open_position
                cause := BalanceUpdateCause.interest
                asset := a
                block_mined_at := event_at
                chain_id := a.chain_id
                old_balance := old_balance
                usd_value := usd_value
                quantity := gained_interest
                position_id := position.position_id
                block_number := block_number
                previous_update_at := some previous_update_at }
            let position := { position with
              balance_update_events := position.balance_update_events ++ [evt] }
            let interest := { interest with
              last_accrued_interest :=
                position.calculate_accrued_interest_quantity a
              last_updated_at := event_at
              last_event_at := event_at
              last_updated_block_number := block_number
              last_token_amount := new_token_amount }
            let position := { position with
              loan := some (loan.set_interest side interest) }
            let st := { st with portfolio := st.portfolio.set_position position }
            Except.ok (st, evt)
          else
            Except.error ("Unlikely gained_interest", st)
    else
      Except.error ("Cannot update interest for closed position", st)

/-- Embedding of `InterestDistributionEntry` (strategy/interest.py): one
position/tracker pair taking part in the distribution, with its weight
assigned later by `prepare_interest_distribution`. -/
structure InterestDistributionEntry where
  side : LoanSide
  position_id : Nat
  tracker : AssetWithTrackedValue
  weight : Option ℚ := none
  price : Option ℚ := none
deriving DecidableEq, Repr

/-- Embedding of the `asset` property of `InterestDistributionEntry`. -/
def InterestDistributionEntry.asset (e : InterestDistributionEntry) :
    AssetIdentifier :=
  e.tracker.asset

/-- Embedding of the `quantity` property of `InterestDistributionEntry`. -/
def InterestDistributionEntry.quantity (e : InterestDistributionEntry) : ℚ :=
  e.tracker.quantity

/-- Embedding of `InterestDistributionEntry.distribute`
(strategy/interest.py), with the Python generator embedded as the executed
call.  The per-position portion of the accrued total is
`total_accrued * weight`; the new tracked token amount is then computed as
`tracker.quantity * position_accrued` exactly as on line 62 of the source
(a multiplication, kept verbatim). -/
def InterestDistributionEntry.distribute (e : InterestDistributionEntry)
    (st : IState) (timestamp : Nat) (block_number : Option Nat)
    (total_accrued : ℚ) : Except (String × IState) (IState × BalanceUpdate) :=
  match e.weight with
  | none => Except.error ("weight not assigned", st)
  | some w =>
    let position_accrued := total_accrued * w
    let new_token_amount := e.tracker.quantity * position_accrued
    match e.price with
    | none => Except.error ("Asset lacks updated price", st)
    | some price =>
      update_interest st e.position_id e.asset new_token_amount timestamp
        price block_number

/-- Embedding of `InterestDistributionOperation` (strategy/interest.py):
interest bearing assets, entries to update, and the Counter of portfolio
totals per asset before the update. -/
structure InterestDistributionOperation where
  assets : List AssetIdentifier
  entries : List InterestDistributionEntry
  totals : List (AssetIdentifier × ℚ)
deriving DecidableEq, Repr

/-- Embedding of the entry loop of `accrue_interest_for_asset`: distribute
to every entry whose asset matches, threading the state. -/
def distribute_to_entries (st : IState)
    (entries : List InterestDistributionEntry) (a : AssetIdentifier)
    (timestamp : Nat) (block_number : Option Nat) (interest_accrued : ℚ) :
    Except (String × IState) (IState × List BalanceUpdate) :=
  match entries with
  | [] => Except.ok (st, [])
  | e :: rest =>
    if e.asset = a then
      match e.distribute st timestamp block_number interest_accrued with
      | Except.error err => Except.error err
      | Except.ok (st, evt) =>
        match distribute_to_entries st rest a timestamp block_number
            interest_accrued with
        | Except.error err => Except.error err
        | Except.ok (st, evts) => Except.ok (st, evt :: evts)
    else
      distribute_to_entries st rest a timestamp block_number interest_accrued

/-- Embedding of `InterestDistributionOperation.accrue_interest_for_asset`
(strategy/interest.py): the accrued delta for the asset is the new pooled
amount minus the recorded total; it must be strictly positive and its
relative size bounded by `max_interest_gain`, and it is then distributed
over the matching entries. -/
def InterestDistributionOperation.accrue_interest_for_asset
    (op : InterestDistributionOperation) (st : IState) (a : AssetIdentifier)
    (timestamp : Nat) (block_number : Option Nat) (new_amount : ℚ)
    (max_interest_gain : ℚ) :
    Except (String × IState) (IState × List BalanceUpdate) :=
  let total := counterGet op.totals a
  let interest_accrued := new_amount - total
  if interest_accrued ≤ 0 then
    Except.error ("Interest cannot go negative", st)
  else if |interest_accrued / total| > max_interest_gain then
    Except.error ("Interest gain tripwired", st)
  else
    distribute_to_entries st op.entries a timestamp block_number
      interest_accrued

/-- Embedding of `set_interest_checkpoint` (strategy/interest.py). -/
def set_interest_checkpoint (st : IState) (timestamp : Nat)
    (block_number : Option Nat) : IState :=
  { st with last_sync_at := some timestamp, last_sync_block := block_number }

/-- Embedding of the per-asset loop of `accrue_interest`
(strategy/interest.py). -/
def accrue_interest_assets (st : IState)
    (balances : List (AssetIdentifier × ℚ))
    (op : InterestDistributionOperation) (timestamp : Nat)
    (block_number : Option Nat) (max_interest_gain : ℚ) :
    Except (String × IState) (IState × List BalanceUpdate) :=
  match balances with
  | [] => Except.ok (st, [])
  | (a, new_balance) :: rest =>
    match op.accrue_interest_for_asset st a timestamp block_number
        new_balance max_interest_gain with
    | Except.error err => Except.error err
    | Except.ok (st, evts) =>
      match accrue_interest_assets st rest op timestamp block_number
          max_interest_gain with
      | Except.error err => Except.error err
      | Except.ok (st, evts2) => Except.ok (st, evts ++ evts2)

/-- Embedding of `accrue_interest` (strategy/interest.py): distribute every
observed on-chain balance through the distribution operation, record the
observed balances on the interest sync state, and set the interest
checkpoint. -/
def accrue_interest (st : IState)
    (on_chain_balances : List (AssetIdentifier × ℚ))
    (interest_distribution : InterestDistributionOperation)
    (block_timestamp : Nat) (block_number : Option Nat)
    (max_interest_gain : ℚ) :
    Except (String × IState) (IState × List BalanceUpdate) :=
  match accrue_interest_assets st on_chain_balances interest_distribution
      block_timestamp block_number max_interest_gain with
  | Except.error err => Except.error err
  | Except.ok (st, evts) =>
    let st := { st with interest_sync_assets := on_chain_balances }
    let st := set_interest_checkpoint st block_timestamp block_number
    Except.ok (st, evts)

/-- Embedding of the accumulator built by the position scan of
`prepare_interest_distribution`. -/
structure PrepAcc where
  assets : List AssetIdentifier := []
  entries : List InterestDistributionEntry := []
  totals : List (AssetIdentifier × ℚ) := []
deriving DecidableEq, Repr

/-- Embedding of the body of the inner asset loop of
`prepare_interest_distribution` (strategy/interest.py) for one position
and one side of its pair: skip assets that do not accrue interest, locate
the tracked side of the loan, price it (stablecoin collateral at one
dollar, borrowed assets through the pricing model), check the entry has a
strictly positive quantity, and accumulate the entry and the asset
total. -/
def process_leg (pm : Nat → TradingPairIdentifier → ℚ → ℚ) (timestamp : Nat)
    (acc : PrepAcc) (p : TradingPosition) (a : AssetIdentifier) :
    Except String PrepAcc :=
  if a.is_interest_accruing = false then Except.ok acc
  else
    match p.loan with
    | none => Except.error "position has no loan"
    | some loan =>
      match loan.get_tracked_asset a with
      | none => Except.error "Got confused with asset"
      | some (side, tracker) =>
        match
          (if side = LoanSide.collateral then
            if p.is_long then Except.error "long collateral not supported"
            else if a.pricing_stablecoin = false then
              Except.error "Asset is collateral but not stablecoin based"
            else Except.ok (1 : ℚ)
          else
            Except.ok (pm timestamp p.pair tracker.quantity)) with
        | Except.error e => Except.error e
        | Except.ok price =>
          let entry : InterestDistributionEntry :=
            { side := side
              position_id := p.position_id
              tracker := tracker
              weight := none
              price := some price }
          if entry.quantity ≤ 0 then
            Except.error "Zero-amount entry in the interest distribution"
          else
            Except.ok
              { assets :=
                  if acc.assets.contains a then acc.assets
                  else acc.assets ++ [a]
                entries := acc.entries ++ [entry]
                totals := counterAdd acc.totals a entry.quantity }

/-- Embedding of one iteration of the position loop of
`prepare_interest_distribution`: both sides of the pair are examined. -/
def process_position (pm : Nat → TradingPairIdentifier → ℚ → ℚ)
    (timestamp : Nat) (acc : PrepAcc) (p : TradingPosition) :
    Except String PrepAcc :=
  match process_leg pm timestamp acc p p.pair.base with
  | Except.error e => Except.error e
  | Except.ok acc => process_leg pm timestamp acc p p.pair.quote

/-- Embedding of the position loop of `prepare_interest_distribution`. -/
def process_positions (pm : Nat → TradingPairIdentifier → ℚ → ℚ)
    (timestamp : Nat) (acc : PrepAcc) :
    List TradingPosition → Except String PrepAcc
  | [] => Except.ok acc
  | p :: rest =>
    match process_position pm timestamp acc p with
    | Except.error e => Except.error e
    | Except.ok acc => process_positions pm timestamp acc rest

/-- Embedding of `prepare_interest_distribution` (strategy/interest.py):
scan every open and frozen position, then assign each entry the weight
`entry.quantity / totals[entry.asset]`. -/
def prepare_interest_distribution (timestamp : Nat) (pf : IPortfolio)
    (pm : Nat → TradingPairIdentifier → ℚ → ℚ) :
    Except String InterestDistributionOperation :=
  match process_positions pm timestamp {} pf.get_open_and_frozen_positions with
  | Except.error e => Except.error e
  | Except.ok acc =>
    Except.ok
      { assets := acc.assets
        entries := acc.entries.map (fun e =>
          { e with weight := some (e.quantity / counterGet acc.totals e.asset) })
        totals := acc.totals }

/-- Helper: the sum of the assigned weights of the entries for one asset
(an unassigned weight reads as zero). -/
def weight_sum (entries : List InterestDistributionEntry)
    (a : AssetIdentifier) : ℚ :=
  ((entries.filter (fun e => decide (e.asset = a))).map
    (fun e => e.weight.getD 0)).sum

/-- Helper: the sum of the quantities of the entries for one asset. -/
def quantity_sum (entries : List InterestDistributionEntry)
    (a : AssetIdentifier) : ℚ :=
  ((entries.filter (fun e => decide (e.asset = a))).map
    (fun e => e.quantity)).sum

end TradeExec.InterestSync

namespace TradeExec.Leverage

/-- Embedding of the loan update mode of
strategy/lending_protocol_leverage.py: planning-time math versus
execution-time math. -/
inductive Mode where
  | plan
  | execute
deriving DecidableEq, Repr

/-- Modelled from the spec: the slice of `TradeExecution` (state/trade.py,
not in the source tree) read by `update_short_loan`.  The optional decimal
fields reproduce the `x or Decimal(0)` defaulting of the source. -/
structure LeverageTrade where
  short : Bool := true
  planned_quantity : ℚ
  executed_quantity : ℚ
  planned_reserve : Option ℚ := none
  executed_reserve : Option ℚ := none
  planned_collateral_allocation : Option ℚ := none
  executed_collateral_allocation : Option ℚ := none
  planned_collateral_consumption : Option ℚ := none
  executed_collateral_consumption : Option ℚ := none
  planned_price : ℚ
  reserve_currency_exchange_rate : ℚ := 1
  opened_at : Nat := 0
deriving DecidableEq, Repr

/-- Modelled from the spec: `AssetWithTrackedValue` mutation state
(state/identifier.py, not in the source tree) as read by
`update_short_loan`. -/
structure TrackedValue where
  quantity : ℚ
  last_usd_price : ℚ := 1
  last_pricing_at : Nat := 0
deriving DecidableEq, Repr

/-- Modelled from the spec: `change_quantity_and_value` of
state/identifier.py (not in the source tree): adjust the tracked quantity
by the delta and revalue at the supplied price.  The epsilon tolerance and
negative-quantity guards are omitted here; the claims under check concern
which trade fields feed the delta. -/
def TrackedValue.change_quantity_and_value (t : TrackedValue) (delta : ℚ)
    (price : ℚ) (at_time : Nat) : TrackedValue :=
  { quantity := t.quantity + delta
    last_usd_price := price
    last_pricing_at := at_time }

/-- Modelled from the spec: the cached token amount of the `Interest`
tracker adjusted by `Interest.adjust` (state/interest.py, not in the
source tree). -/
structure CachedInterest where
  last_token_amount : ℚ
deriving DecidableEq, Repr

/-- Modelled from the spec: `Interest.adjust` of state/interest.py (not in
the source tree): shift the cached token amount by the delta. -/
def CachedInterest.adjust (i : CachedInterest) (delta : ℚ) : CachedInterest :=
  { last_token_amount := i.last_token_amount + delta }

/-- Modelled from the spec: the `Loan` slice (state/loan.py, not in the
source tree) mutated by `update_short_loan`: collateral and borrowed
trackers and their cached interest amounts.  A short loan always has a
borrowed side. -/
structure ShortLoan where
  collateral : TrackedValue
  borrowed : TrackedValue
  collateral_interest : CachedInterest
  borrowed_interest : CachedInterest
deriving DecidableEq, Repr

/-- Embedding of `update_short_loan`
(strategy/lending_protocol_leverage.py).  The mode branch picks the
planned or executed trade fields for the collateral delta and the borrow
delta; after the branch the source re-assigns
`borrow_change = -trade.planned_quantity` unconditionally (line 237),
which this embedding reproduces verbatim.  `check_health` lives in
state/loan.py (not in the source tree) and is passed in; the position is
represented by its trade count for the entry assertion. -/
def update_short_loan (loan : ShortLoan) (position_trade_count : Nat)
    (trade : LeverageTrade) (mode : Mode) (close_position : Bool)
    (check_health : ShortLoan → Bool) : Except String ShortLoan :=
  if trade.short = false then Except.error "not a short trade"
  else if position_trade_count ≤ 1 then
    Except.error "Can be only called when closing/reducing/increasing/position"
  else
    let branch :=
      match mode with
      | Mode.plan =>
        (trade.planned_collateral_consumption.getD 0,
         trade.planned_collateral_allocation.getD 0,
         trade.planned_reserve.getD 0,
         -trade.planned_quantity)
      | Mode.execute =>
        (trade.executed_collateral_consumption.getD 0,
         trade.executed_collateral_allocation.getD 0,
         trade.executed_reserve.getD 0,
         -trade.executed_quantity)
    let collateral_consumption := branch.1
    let collateral_allocation := branch.2.1
    let reserve_adjust := branch.2.2.1
    let collateral_change :=
      collateral_consumption + collateral_allocation + reserve_adjust
    let borrow_change := -trade.planned_quantity
    let _ := close_position
    let loan := { loan with collateral :=
      (loan.collateral.change_quantity_and_value collateral_change
        trade.reserve_currency_exchange_rate trade.opened_at) }
    let loan := { loan with borrowed :=
      (loan.borrowed.change_quantity_and_value borrow_change
        trade.planned_price trade.opened_at) }
    let loan := { loan with
      borrowed_interest := loan.borrowed_interest.adjust borrow_change
      collateral_interest := loan.collateral_interest.adjust collateral_change }
    if 0 < loan.borrowed.quantity && check_health loan = false then
      Except.error "LiquidationRisked"
    else
      Except.ok loan

end TradeExec.Leverage

namespace TradeExec

/-- Concrete reserve currency asset used by the worked examples. -/
def usdc : AssetIdentifier := { chain_id := 1, address := "0xusdc" }

/-- Concrete spot asset used by the worked examples. -/
def weth : AssetIdentifier := { chain_id := 1, address := "0xweth" }

/-- Concrete interest-accruing aToken used by the worked examples. -/
def ausdc : AssetIdentifier :=
  { chain_id := 1, address := "0xausdc", kind := .collateral,
    pricing_stablecoin := true }

end TradeExec

namespace TradeExec.InterestSync

/-- Credit-supply pair of the interest distribution examples. -/
def c1_pair : TradingPairIdentifier :=
  { base := ausdc, quote := usdc, kind := .credit_supply }

/-- Open credit-supply position tracking two aUSDC. -/
def c1_position : TradingPosition :=
  { position_id := 1
    pair := c1_pair
    loan := some
      { collateral := { asset := ausdc, quantity := 2 }
        collateral_interest := { opening_amount := 2, last_token_amount := 2 } }
    status := .open_status }

/-- Strategy state holding the single credit-supply position. -/
def c1_state : IState :=
  { portfolio := { positions := [c1_position], next_balance_update_id := 1 } }

/-- Distribution entry for the single position: full weight. -/
def c1_entry : InterestDistributionEntry :=
  { side := .collateral, position_id := 1
    tracker := { asset := ausdc, quantity := 2 }
    weight := some 1, price := some 1 }

/-- Distribution operation over the single position: prior total two. -/
def c1_op : InterestDistributionOperation :=
  { assets := [ausdc], entries := [c1_entry], totals := [(ausdc, 2)] }

/-- Tracked aToken amount of the position after accruing against an observed
pooled balance of five (prior total two, so the accrued delta is three). -/
def c1_tracked_amount : Option ℚ :=
  match accrue_interest c1_state [(ausdc, 5)] c1_op 100 (some 7) 2 with
  | Except.ok (st, _) =>
    match st.portfolio.positions with
    | [p] => p.loan.map (fun l => l.collateral_interest.last_token_amount)
    | _ => none
  | Except.error _ => none

/-- Distribution operation used by the tripwire witness: prior total two,
no entries needed because the assertions fire before distribution. -/
def c6_op : InterestDistributionOperation :=
  { assets := [ausdc], entries := [], totals := [(ausdc, 2)] }

/-- Empty strategy state used by the tripwire witness. -/
def c6_state : IState := {}

/-- Two open credit-supply positions sharing the aUSDC asset with
quantities three and one, for the weight normalisation witness. -/
def c8_portfolio : IPortfolio :=
  { positions :=
      [{ position_id := 1, pair := c1_pair
         loan := some
           { collateral := { asset := ausdc, quantity := 3 }
             collateral_interest :=
               { opening_amount := 3, last_token_amount := 3 } } },
       { position_id := 2, pair := c1_pair
         loan := some
           { collateral := { asset := ausdc, quantity := 1 }
             collateral_interest :=
               { opening_amount := 1, last_token_amount := 1 } } }] }

/-- The distribution the scan produces for `c8_portfolio`: weights
three-quarters and one-quarter. -/
def c8_op : InterestDistributionOperation :=
  { assets := [ausdc]
    entries :=
      [{ side := .collateral, position_id := 1
         tracker := { asset := ausdc, quantity := 3 }
         weight := some (3 / 4), price := some 1 },
       { side := .collateral, position_id := 2
         tracker := { asset := ausdc, quantity := 1 }
         weight := some (1 / 4), price := some 1 }]
    totals := [(ausdc, 4)] }

end TradeExec.InterestSync

namespace TradeExec.Vault

/-- Deposit balance update already recorded in `processed_events` (the
reorg-replay collision target). -/
def c3_prior_event : BalanceUpdate :=
  { balance_update_id := 1, position_type := .reserve, update_type := .deposit
    asset := usdc, block_mined_at := 10, chain_id := 1, past_quantity := 0
    new_quantity := 500, owner_address := "alice", tx_hash := "0xdead"
    log_index := 1, position_id := none }

/-- Initialised vault state holding five hundred USDC of reserves with the
prior deposit already processed. -/
def c3_state : VaultState :=
  { portfolio :=
      { reserves := [{ asset := usdc, quantity := 500, balance_updates := [1] }]
        next_balance_update_id := 2 }
    sync :=
      { initialised := true, deployment_block := 1
        treasury :=
          { last_block_scanned := some 20
            processed_events := [(1, c3_prior_event)]
            last_updated_at := some 10, last_cycle_at := some 10 } } }

/-- The same on-chain deposit replayed by a reorg: identical chain id,
transaction hash and log index as the already-processed event. -/
def c3_replayed : Deposit :=
  { denomination_token := usdc, investment_amount := 250, receiver := "alice"
    timestamp := 10, tx_hash := "0xdead", log_index := 1 }

/-- Reserve quantities of the state carried by the assertion error when the
replayed deposit is synced (an empty list would mean the call
succeeded). -/
def c3_error_reserves : List ℚ :=
  match sync_treasury c3_state [.deposit c3_replayed] 30 1 99 98 with
  | Except.error (_, s) => s.portfolio.reserves.map (fun r => r.quantity)
  | Except.ok _ => []

/-- The portfolio after the replayed deposit has been applied: the reserve
was already credited when the collision assertion fires. -/
def c3_applied_portfolio : Portfolio :=
  { reserves :=
      [{ asset := usdc, quantity := 750, reserve_token_price := 1
         last_pricing_at := some 99, last_sync_at := some 99
         balance_updates := [1, 2] }]
    open_positions := []
    next_balance_update_id := 3 }

/-- The balance update the replayed deposit translates to before the
collision check rejects it. -/
def c3_new_event : BalanceUpdate :=
  { balance_update_id := 2, position_type := .reserve, update_type := .deposit
    asset := usdc, block_mined_at := 10, chain_id := 1, past_quantity := 500
    new_quantity := 750, owner_address := "alice", tx_hash := "0xdead"
    log_index := 1, position_id := none }

/-- Initialised vault state used by the idempotent-sync witness. -/
def c7_state : VaultState :=
  { portfolio :=
      { reserves := [{ asset := usdc, quantity := 500, balance_updates := [1] }]
        next_balance_update_id := 2 }
    sync :=
      { initialised := true, deployment_block := 1
        treasury :=
          { last_block_scanned := some 5
            processed_events := [(1, c3_prior_event)] } } }

/-- State after the first quiet sync of `c7_state` at head block five. -/
def c7_s1 : VaultState :=
  { c7_state with sync := { c7_state.sync with treasury :=
      { c7_state.sync.treasury with
        last_block_scanned := some 5
        last_updated_at := some 11
        last_cycle_at := some 12 } } }

/-- Reserve position used by the redemption-resolution witnesses. -/
def c9_reserve : ReservePosition :=
  { asset := usdc, quantity := 500, balance_updates := [] }

/-- Open spot position used by the redemption-resolution witnesses. -/
def c9_open_position : TradingPosition :=
  { position_id := 7, asset := weth, quantity := 10, balance_updates := [] }

/-- Portfolio with one reserve and one open spot position, used by the
redemption-resolution witnesses. -/
def c9_portfolio : Portfolio :=
  { reserves := [c9_reserve]
    open_positions := [c9_open_position]
    next_balance_update_id := 5 }

/-- Redemption event metadata used by the redemption witnesses. -/
def c9_event : Redemption :=
  { redeemed_assets := [], redeemer := "bob", timestamp := 3
    tx_hash := "0xredeem", log_index := 2 }

end TradeExec.Vault

namespace TradeExec.Repair

/-- Spot pair of the repair examples. -/
def c4_pair : TradingPairIdentifier := { base := weth, quote := usdc }

/-- A failed on-chain trade demanding repair. -/
def c4_failed_trade : TradeExecution :=
  { trade_id := 1, position_id := 1, pair := c4_pair, planned_quantity := 5
    planned_price := 2, status := .failed }

/-- The frozen position holding the failed trade. -/
def c4_position : TradingPosition :=
  { position_id := 1, pair := c4_pair, trades := [c4_failed_trade] }

/-- Portfolio whose only position is frozen with one failed trade. -/
def c4_portfolio : Portfolio :=
  { frozen_positions := [c4_position], next_trade_id := 2 }

/-- Summary of running `repair_trades` on `c4_portfolio` with
`attempt_repair` set and `interactive` unset: the unfrozen positions, the
number of counter trades made, the ids of the positions still frozen, and
the number of trades still needing repair afterwards. -/
def c4_outcome : Option (List TradingPosition × Nat × List Nat × Nat) :=
  match repair_trades c4_portfolio true false "" 50 with
  | Except.ok (pf, res) =>
    some (res.unfrozen_positions, res.new_trades.length,
      pf.frozen_positions.map (fun p => p.position_id),
      (find_trades_to_be_repaired pf).length)
  | Except.error _ => none

end TradeExec.Repair

namespace TradeExec.Leverage

/-- Short loan before the update: one hundred collateral, five borrowed. -/
def c2_loan : ShortLoan :=
  { collateral := { quantity := 100 }, borrowed := { quantity := 5 }
    collateral_interest := { last_token_amount := 100 }
    borrowed_interest := { last_token_amount := 5 } }

/-- An increase trade whose executed quantity differs from the planned one
(planned short sell of ten executed as nine). -/
def c2_trade : LeverageTrade :=
  { planned_quantity := -10, executed_quantity := -9
    executed_reserve := some 1, executed_collateral_allocation := some 2
    executed_collateral_consumption := some 3, planned_price := 4 }

/-- Borrowed and collateral quantities after updating `c2_loan` with
`c2_trade` in execute mode. -/
def c2_result_quantities : Option (ℚ × ℚ) :=
  match update_short_loan c2_loan 2 c2_trade .execute false (fun _ => true)
  with
  | Except.ok l => some (l.borrowed.quantity, l.collateral.quantity)
  | Except.error _ => none

end TradeExec.Leverage

namespace TradeExec

/-- C1: the source distributes a pooled interest delta by setting the new
tracked token amount to `tracker.quantity * (weight * delta)` (a
multiplication, strategy/interest.py line 62) instead of the claimed
`tracker.quantity + weight * delta`.  On a single full-weight position
tracking two tokens with an observed pooled balance of five (delta three),
the code records a tracked amount of six, while the claimed formula gives
`2 + 1 * (5 - 2) = 5`. -/
theorem interest_distribution_multiplies_instead_of_adding :
    InterestSync.c1_tracked_amount = some 6 ∧ (6 : ℚ) ≠ 2 + 1 * (5 - 2) := by
  constructor
  · norm_num [InterestSync.c1_tracked_amount, InterestSync.accrue_interest,
      InterestSync.accrue_interest_assets,
      InterestSync.InterestDistributionOperation.accrue_interest_for_asset,
      InterestSync.counterGet, InterestSync.distribute_to_entries,
      InterestSync.InterestDistributionEntry.distribute,
      InterestSync.InterestDistributionEntry.asset,
      InterestSync.InterestDistributionEntry.quantity,
      InterestSync.update_interest, InterestSync.set_interest_checkpoint,
      InterestSync.IPortfolio.set_position, InterestSync.Loan.set_interest,
      InterestSync.TradingPosition.calculate_accrued_interest_quantity,
      InterestSync.c1_state, InterestSync.c1_position, InterestSync.c1_op,
      InterestSync.c1_entry, InterestSync.c1_pair, ausdc, usdc,
      List.find?, List.filter,
      abs_of_nonneg (by norm_num : (0 : ℚ) ≤ 3 / 2)]
  · norm_num

/-- C2: in execute mode `update_short_loan` still changes the borrowed
quantity by `-planned_quantity`: line 237 of
strategy/lending_protocol_leverage.py overwrites the execute-branch
assignment.  With five borrowed, a planned sell of ten executed as nine,
the borrowed quantity becomes fifteen, not the claimed `5 + 9 = 14`; the
collateral side does follow the executed fields (`3 + 2 + 1` added to one
hundred). -/
theorem update_short_loan_execute_reads_planned_quantity :
    Leverage.c2_result_quantities = some (15, 106) ∧ (15 : ℚ) ≠ 5 + 9 := by
  constructor
  · norm_num [Leverage.c2_result_quantities, Leverage.update_short_loan,
      Leverage.c2_loan, Leverage.c2_trade,
      Leverage.TrackedValue.change_quantity_and_value,
      Leverage.CachedInterest.adjust]
  · norm_num

/-- C3 counterexample: a replayed deposit event colliding with
`processed_events` does not leave portfolio quantities unchanged — the
assertion fires only after `translate_and_apply_event` has already credited
the reserve, so the error state shows seven hundred fifty where the claim
requires the original five hundred. -/
theorem sync_treasury_collision_mutates_portfolio_cx :
    Vault.c3_error_reserves = [750] ∧ (750 : ℚ) ≠ 500 := by
  constructor
  · norm_num [Vault.c3_error_reserves, Vault.sync_treasury,
      Vault.apply_balance_events, Vault.translate_and_apply_event,
      Vault.process_deposit, Vault.Portfolio.get_reserve_by_address,
      Vault.Portfolio.initialise_reserves, Vault.updateFirst,
      Vault.record_processed_events, Vault.BalanceUpdate.collision_key,
      Vault.c3_state, Vault.c3_replayed, Vault.c3_prior_event, usdc,
      List.find?, List.any]
  · norm_num

/-- C4: `unfreeze_position` is an unimplemented stub returning Python None,
so even after every trade needing repair has been repaired
(`find_trades_to_be_repaired` returns nothing afterwards and one counter
trade was made), `repair_trades` reports no unfrozen positions and the
fully repaired position stays in `frozen_positions`. -/
theorem repair_trades_leaves_positions_frozen :
    Repair.c4_outcome = some ([], 1, [1], 0) := by
  norm_num [Repair.c4_outcome, Repair.repair_trades,
    Repair.find_trades_to_be_repaired, Repair.Portfolio.open_and_frozen,
    Repair.TradeExecution.is_repair_needed, Repair.repair_all,
    Repair.repair_trade, Repair.Portfolio.get_position_by_id,
    Repair.make_counter_trade, Repair.TradeExecution.mark_success,
    Repair.TradeExecution.is_success, Repair.TradeExecution.get_status,
    Repair.TradeExecution.get_value,
    Repair.TradeExecution.get_position_quantity,
    Repair.Portfolio.update_position, Repair.Portfolio.create_trade,
    Repair.unfreeze_position, Repair.c4_portfolio, Repair.c4_position,
    Repair.c4_failed_trade, Repair.c4_pair, weth, usdc,
    List.find?, List.filter, List.flatMap]
  simp +decide

end TradeExec

namespace TradeExec

/-- C3 (amended): the duplicate-event check of `sync_treasury` runs only
after every translated event has been applied: whenever the translation of
the fetched events succeeds and some translated event collides with
`processed_events`, the call raises the collision assertion, but the state
it leaves behind already carries the fully applied portfolio (the batch's
mutations, including the colliding event's, are committed and not rolled
back). -/
theorem sync_treasury_collision_check_after_commit
    (s : Vault.VaultState) (fetched : List Vault.EnzymeBalanceEvent)
    (end_block : Nat) (ex : ℚ) (now cyc : Nat)
    (pf : Vault.Portfolio) (events : List Vault.BalanceUpdate)
    (msg : String) (processed : List (Nat × Vault.BalanceUpdate))
    (hinit : s.sync.initialised = true)
    (happly : Vault.apply_balance_events s.portfolio fetched ex now =
      Except.ok (pf, events))
    (hcol : Vault.record_processed_events
        (s.sync.treasury.processed_events.map (fun kv => kv.2))
        s.sync.treasury.processed_events events =
      Except.error (msg, processed)) :
    Vault.sync_treasury s fetched end_block ex now cyc =
      Except.error (msg, { s with
        portfolio := pf
        sync := { s.sync with treasury :=
          { s.sync.treasury with processed_events := processed } } }) := by
  simp [Vault.sync_treasury, hinit, happly, hcol]

/-- Witness for the amended C3 theorem: the replayed deposit of the
counterexample, pushed through the theorem at its concrete input. -/
theorem sync_treasury_collision_check_after_commit_witness :
    Vault.sync_treasury Vault.c3_state
        [Vault.EnzymeBalanceEvent.deposit Vault.c3_replayed] 30 1 99 98 =
      Except.error ("Event already processed", { Vault.c3_state with
        portfolio := Vault.c3_applied_portfolio
        sync := { Vault.c3_state.sync with treasury :=
          { Vault.c3_state.sync.treasury with
            processed_events := [(1, Vault.c3_prior_event)] } } }) := by
  exact sync_treasury_collision_check_after_commit Vault.c3_state
    [Vault.EnzymeBalanceEvent.deposit Vault.c3_replayed] 30 1 99 98
    Vault.c3_applied_portfolio [Vault.c3_new_event]
    "Event already processed" [(1, Vault.c3_prior_event)]
    rfl
    (by norm_num [Vault.apply_balance_events, Vault.translate_and_apply_event,
      Vault.process_deposit, Vault.Portfolio.get_reserve_by_address,
      Vault.Portfolio.initialise_reserves, Vault.updateFirst,
      Vault.c3_state, Vault.c3_replayed, Vault.c3_applied_portfolio,
      Vault.c3_new_event, usdc, List.find?])
    (by simp +decide [Vault.record_processed_events,
      Vault.BalanceUpdate.collision_key, Vault.c3_state,
      Vault.c3_prior_event, Vault.c3_new_event, usdc])

/-- C7: a second `sync_treasury` call with the chain head unchanged and no
new balance events returns an empty balance update list and leaves the
portfolio, the last scanned block and the processed-events record exactly
as the first call left them. -/
theorem sync_treasury_idempotent_when_quiet
    (s : Vault.VaultState) (fetched : List Vault.EnzymeBalanceEvent)
    (head : Nat) (ex : ℚ) (n1 t1 n2 t2 : Nat)
    (s1 : Vault.VaultState) (es1 : List Vault.BalanceUpdate)
    (hfirst : Vault.sync_treasury s fetched head ex n1 t1 =
      Except.ok (s1, es1)) :
    (Vault.sync_treasury s1 [] head ex n2 t2).map
        (fun r => (r.1.portfolio, r.1.sync.treasury.last_block_scanned,
          r.1.sync.treasury.processed_events, r.2)) =
      Except.ok (s1.portfolio, s1.sync.treasury.last_block_scanned,
        s1.sync.treasury.processed_events, ([] : List Vault.BalanceUpdate))
    := by
  simp only [Vault.sync_treasury] at hfirst
  split at hfirst
  · exact absurd hfirst (by simp)
  · rename_i hinit
    split at hfirst
    · exact absurd hfirst (by simp)
    · rename_i pf events happly
      split at hfirst
      · exact absurd hfirst (by simp)
      · rename_i processed hrec
        rw [Except.ok.injEq, Prod.mk.injEq] at hfirst
        obtain ⟨hs1, -⟩ := hfirst
        subst hs1
        simp [Vault.sync_treasury, Vault.apply_balance_events,
          Vault.record_processed_events, hinit, Except.map]

end TradeExec

namespace TradeExec

/-- Witness for the C7 theorem: a quiet second sync after a quiet first
sync of the concrete initialised vault state at head block five. -/
theorem sync_treasury_idempotent_when_quiet_witness :
    (Vault.sync_treasury Vault.c7_s1 [] 5 1 21 22).map
        (fun r => (r.1.portfolio, r.1.sync.treasury.last_block_scanned,
          r.1.sync.treasury.processed_events, r.2)) =
      Except.ok (Vault.c7_s1.portfolio,
        Vault.c7_s1.sync.treasury.last_block_scanned,
        Vault.c7_s1.sync.treasury.processed_events,
        ([] : List Vault.BalanceUpdate)) := by
  exact sync_treasury_idempotent_when_quiet Vault.c7_state [] 5 1 11 12 21 22
    Vault.c7_s1 []
    (by simp [Vault.sync_treasury, Vault.apply_balance_events,
      Vault.record_processed_events, Vault.c7_state, Vault.c7_s1])

end TradeExec

namespace TradeExec.Vault

/-- Helper: a successful `find?` splits the list around the first match,
and `updateFirst` rewrites exactly that element. -/
theorem updateFirst_decomp {α : Type} (pred : α → Bool) (f : α → α)
    (l : List α) (x : α) (h : l.find? pred = some x) :
    ∃ l1 l2, l = l1 ++ x :: l2 ∧ (∀ y ∈ l1, pred y = false) ∧
      updateFirst pred f l = l1 ++ f x :: l2 := by
  induction l with
  | nil => simp [List.find?] at h
  | cons hd tl ih =>
    by_cases hp : pred hd
    · rw [List.find?_cons_of_pos _ hp, Option.some.injEq] at h
      subst h
      exact ⟨[], tl, by simp, by simp, by simp [updateFirst, hp]⟩
    · rw [List.find?_cons_of_neg _ hp] at h
      obtain ⟨l1, l2, hl, hl1, hup⟩ := ih h
      refine ⟨hd :: l1, l2, by simp [hl], ?_, ?_⟩
      · intro y hy
        rcases List.mem_cons.mp hy with hy | hy
        · subst hy; exact Bool.of_not_eq_true hp
        · exact hl1 y hy
      · simp [updateFirst, hp, hup]

end TradeExec.Vault

namespace TradeExec

/-- C9: during sync, each redeemed asset resolves to the reserve position
when its address matches the reserve asset, otherwise to the first open
trading position holding it; the resolved holder's quantity is decreased
by the redeemed amount and exactly one redemption balance update is
produced for the asset; an asset matching neither holder raises
UnknownAsset instead of being dropped. -/
theorem redemption_resolves_and_decrements
    (pf : Vault.Portfolio) (r : Vault.ReservePosition)
    (a : AssetIdentifier) (q : ℚ) (ev : Vault.Redemption)
    (hres : pf.reserves = [r]) :
    (r.asset.address = a.address → 0 < r.quantity - q →
      Vault.process_redeemed_asset pf a q ev =
        Except.ok ({ pf with
          next_balance_update_id := pf.next_balance_update_id + 1
          reserves := [{ r with
            quantity := r.quantity - q
            balance_updates :=
              r.balance_updates ++ [pf.next_balance_update_id] }] },
          { balance_update_id := pf.next_balance_update_id
            position_type := Vault.BalanceUpdatePositionType.reserve
            update_type := Vault.BalanceUpdateType.redemption
            asset := a
            block_mined_at := ev.timestamp
            chain_id := a.chain_id
            past_quantity := r.quantity
            new_quantity := r.quantity - q
            owner_address := ev.redeemer
            tx_hash := ev.tx_hash
            log_index := ev.log_index
            position_id := none })) ∧
    (∀ p, r.asset.address ≠ a.address →
      pf.get_open_position_for_asset a = some p → 0 < p.quantity - q →
      ∃ l1 l2, pf.open_positions = l1 ++ p :: l2 ∧
        (∀ x ∈ l1, x.asset ≠ a) ∧
        Vault.process_redeemed_asset pf a q ev =
          Except.ok ({ pf with
            next_balance_update_id := pf.next_balance_update_id + 1
            open_positions := l1 ++ ({ p with
              quantity := p.quantity - q
              balance_updates :=
                p.balance_updates ++ [pf.next_balance_update_id] }) :: l2 },
            { balance_update_id := pf.next_balance_update_id
              position_type := Vault.BalanceUpdatePositionType.open_position
              update_type := Vault.BalanceUpdateType.redemption
              asset := a
              block_mined_at := ev.timestamp
              chain_id := a.chain_id
              past_quantity := p.quantity
              new_quantity := p.quantity - q
              owner_address := ev.redeemer
              tx_hash := ev.tx_hash
              log_index := ev.log_index
              position_id := some p.position_id })) ∧
    (r.asset.address ≠ a.address →
      pf.get_open_position_for_asset a = none →
      Vault.process_redeemed_asset pf a q ev =
        Except.error ("UnknownAsset", pf)) := by
  refine ⟨?_, ?_, ?_⟩
  · intro haddr hpos
    simp [Vault.process_redeemed_asset, Vault.get_related_position,
      Vault.Portfolio.get_reserve_by_address, hres, haddr, Vault.updateFirst,
      List.find?, not_le.mpr hpos]
  · intro p haddr hfind hpos
    have hfind2 : List.find? (fun s => decide (s.asset = a))
        pf.open_positions = some p := hfind
    obtain ⟨l1, l2, hl, hl1, hup⟩ := Vault.updateFirst_decomp
      (fun s => s.asset = a)
      (fun s => { s with
        quantity := s.quantity - q
        balance_updates :=
          s.balance_updates ++ [pf.next_balance_update_id] })
      pf.open_positions p hfind2
    refine ⟨l1, l2, hl, ?_, ?_⟩
    · intro x hx
      have := hl1 x hx
      simpa using this
    · simp [Vault.process_redeemed_asset, Vault.get_related_position,
        Vault.Portfolio.get_reserve_by_address, hres, haddr,
        hfind, hup, List.find?, not_le.mpr hpos]
  · intro haddr hnone
    simp [Vault.process_redeemed_asset, Vault.get_related_position,
      Vault.Portfolio.get_reserve_by_address, hres, haddr,
      hnone, List.find?]

end TradeExec

namespace TradeExec

/-- C10: the redemption path requires the holder's remaining quantity to be
strictly positive: when the redeemed amount equals or exceeds the holder's
entire balance, `process_redeemed_asset` raises the negative-position
assertion instead of emitting a balance update, and the error state shows
the holder already decremented — the check fires after the mutation, so a
full in-kind redemption of the reserve or of a position cannot be
processed. -/
theorem redemption_full_balance_asserts
    (pf : Vault.Portfolio) (r : Vault.ReservePosition)
    (a : AssetIdentifier) (q : ℚ) (ev : Vault.Redemption)
    (hres : pf.reserves = [r]) :
    (r.asset.address = a.address → r.quantity - q ≤ 0 →
      Vault.process_redeemed_asset pf a q ev =
        Except.error ("Position went to negative", { pf with
          next_balance_update_id := pf.next_balance_update_id + 1
          reserves := [{ r with
            quantity := r.quantity - q
            balance_updates :=
              r.balance_updates ++ [pf.next_balance_update_id] }] })) ∧
    (∀ p, r.asset.address ≠ a.address →
      pf.get_open_position_for_asset a = some p → p.quantity - q ≤ 0 →
      ∃ l1 l2, pf.open_positions = l1 ++ p :: l2 ∧
        Vault.process_redeemed_asset pf a q ev =
          Except.error ("Position went to negative", { pf with
            next_balance_update_id := pf.next_balance_update_id + 1
            open_positions := l1 ++ ({ p with
              quantity := p.quantity - q
              balance_updates :=
                p.balance_updates ++ [pf.next_balance_update_id] }) :: l2 }))
    := by
  constructor
  · intro haddr hneg
    simp [Vault.process_redeemed_asset, Vault.get_related_position,
      Vault.Portfolio.get_reserve_by_address, hres, haddr, Vault.updateFirst,
      List.find?, hneg]
  · intro p haddr hfind hneg
    have hfind2 : List.find? (fun s => decide (s.asset = a))
        pf.open_positions = some p := hfind
    obtain ⟨l1, l2, hl, hl1, hup⟩ := Vault.updateFirst_decomp
      (fun s => s.asset = a)
      (fun s => { s with
        quantity := s.quantity - q
        balance_updates :=
          s.balance_updates ++ [pf.next_balance_update_id] })
      pf.open_positions p hfind2
    refine ⟨l1, l2, hl, ?_⟩
    simp [Vault.process_redeemed_asset, Vault.get_related_position,
      Vault.Portfolio.get_reserve_by_address, hres, haddr,
      hfind, hup, List.find?, hneg]

/-- Witness for the C9 theorem: redeeming two hundred out of five hundred
reserve USDC resolves to the reserve position, decrements it to three
hundred, and produces the redemption balance update. -/
theorem redemption_resolves_and_decrements_witness :
    Vault.process_redeemed_asset Vault.c9_portfolio usdc 200 Vault.c9_event =
      Except.ok ({ Vault.c9_portfolio with
        next_balance_update_id :=
          Vault.c9_portfolio.next_balance_update_id + 1
        reserves := [{ Vault.c9_reserve with
          quantity := Vault.c9_reserve.quantity - 200
          balance_updates := Vault.c9_reserve.balance_updates ++
            [Vault.c9_portfolio.next_balance_update_id] }] },
        { balance_update_id := Vault.c9_portfolio.next_balance_update_id
          position_type := Vault.BalanceUpdatePositionType.reserve
          update_type := Vault.BalanceUpdateType.redemption
          asset := usdc
          block_mined_at := Vault.c9_event.timestamp
          chain_id := usdc.chain_id
          past_quantity := Vault.c9_reserve.quantity
          new_quantity := Vault.c9_reserve.quantity - 200
          owner_address := Vault.c9_event.redeemer
          tx_hash := Vault.c9_event.tx_hash
          log_index := Vault.c9_event.log_index
          position_id := none }) := by
  exact (redemption_resolves_and_decrements Vault.c9_portfolio
    Vault.c9_reserve usdc 200 Vault.c9_event rfl).1 rfl
    (by norm_num [Vault.c9_reserve])

/-- Witness for the C10 theorem: redeeming the full five hundred reserve
USDC trips the negative-position assertion with the reserve already
decremented to zero in the carried state. -/
theorem redemption_full_balance_asserts_witness :
    Vault.process_redeemed_asset Vault.c9_portfolio usdc 500 Vault.c9_event =
      Except.error ("Position went to negative", { Vault.c9_portfolio with
        next_balance_update_id :=
          Vault.c9_portfolio.next_balance_update_id + 1
        reserves := [{ Vault.c9_reserve with
          quantity := Vault.c9_reserve.quantity - 500
          balance_updates := Vault.c9_reserve.balance_updates ++
            [Vault.c9_portfolio.next_balance_update_id] }] }) := by
  exact (redemption_full_balance_asserts Vault.c9_portfolio
    Vault.c9_reserve usdc 500 Vault.c9_event rfl).1 rfl
    (by norm_num [Vault.c9_reserve])

end TradeExec

namespace TradeExec

/-- Helper: updating a position by id maps the open-and-frozen view
pointwise. -/
theorem open_and_frozen_update_position (pf : Repair.Portfolio) (pid : Nat)
    (f : Repair.TradingPosition → Repair.TradingPosition) :
    (pf.update_position pid f).open_and_frozen =
      pf.open_and_frozen.map
        (fun p => if p.position_id = pid then f p else p) := by
  simp [Repair.Portfolio.update_position, Repair.Portfolio.open_and_frozen]

/-- C5: repairing a trade with nonzero planned quantity creates a counter
trade on the same position with the negated planned quantity at the
planned price, of repair type, immediately executed-successful with zero
executed quantity, reserve and fees (hence zero value and position
quantity), linked back to the original trade; afterwards the original
trade reports status repaired with zero value and zero position quantity,
and the stored copy of the original inside the portfolio is the repaired
one. -/
theorem repair_trade_zeroes_original
    (pf : Repair.Portfolio) (p : Repair.TradingPosition)
    (t : Repair.TradeExecution) (now : Nat)
    (hp : pf.get_position_by_id t.position_id = some p)
    (hq : t.planned_quantity ≠ 0) :
    ((Repair.repair_trade pf t now).map (fun r =>
        (r.2.position_id, r.2.planned_quantity, r.2.planned_price,
         r.2.trade_type, r.2.get_status, r.2.executed_quantity,
         r.2.executed_reserve, r.2.lp_fees_paid, r.2.get_value,
         r.2.get_position_quantity, r.2.repaired_trade_id)) =
      Except.ok (t.position_id, -t.planned_quantity, t.planned_price,
        Repair.TradeType.repair, Repair.TradeStatus.success, 0, 0, 0, 0, 0,
        some t.trade_id)) ∧
    ({ t with repaired_at := some now } :
        Repair.TradeExecution).get_status = Repair.TradeStatus.repaired ∧
    ({ t with repaired_at := some now } :
        Repair.TradeExecution).get_value = 0 ∧
    ({ t with repaired_at := some now } :
        Repair.TradeExecution).get_position_quantity = 0 ∧
    (∀ pf2 c, Repair.repair_trade pf t now = Except.ok (pf2, c) →
      ∀ q ∈ pf2.open_and_frozen, q.position_id = t.position_id →
      ∀ u ∈ q.trades, u.trade_id = t.trade_id →
        u.get_status = Repair.TradeStatus.repaired ∨ u = c) := by
  have hpid : p.position_id = t.position_id := by
    have := List.find?_some hp
    simpa using this
  refine ⟨?_, ?_, ?_, ?_, ?_⟩
  · simp [Repair.repair_trade, Repair.make_counter_trade, hp, hq, hpid,
      Repair.TradeExecution.mark_success, Repair.TradeExecution.is_success,
      Repair.TradeExecution.get_status, Repair.TradeExecution.get_value,
      Repair.TradeExecution.get_position_quantity, Except.map]
  · simp [Repair.TradeExecution.get_status]
  · simp [Repair.TradeExecution.get_status, Repair.TradeExecution.get_value]
  · simp [Repair.TradeExecution.get_status,
      Repair.TradeExecution.get_position_quantity]
  · intro pf2 c heq q hqmem hqpid u humem hutid
    simp [Repair.repair_trade, Repair.make_counter_trade, hp, hq,
      Repair.TradeExecution.mark_success, Repair.TradeExecution.is_success,
      Repair.TradeExecution.get_status, Repair.TradeExecution.get_value,
      Repair.TradeExecution.get_position_quantity] at heq
    obtain ⟨h1, h2⟩ := heq
    subst h1
    subst h2
    rw [open_and_frozen_update_position] at hqmem
    obtain ⟨q1, hq1mem, hq1⟩ := List.mem_map.mp hqmem
    by_cases hq1pid : q1.position_id = t.position_id
    · rw [if_pos hq1pid] at hq1
      subst hq1
      simp only [List.mem_map] at humem
      obtain ⟨u0, hu0mem, hu0⟩ := humem
      by_cases hid1 : u0.trade_id = t.trade_id
      · rw [if_pos hid1] at hu0
        subst hu0
        left
        simp [Repair.TradeExecution.get_status]
      · rw [if_neg hid1] at hu0
        by_cases hid2 : u0.trade_id = pf.next_trade_id
        · rw [if_pos hid2] at hu0
          right
          exact hu0.symm
        · rw [if_neg hid2] at hu0
          subst hu0
          exact absurd hutid hid1
    · rw [if_neg hq1pid] at hq1
      subst hq1
      exact absurd hqpid hq1pid

end TradeExec

namespace TradeExec

/-- Witness for the C5 theorem: repairing the concrete failed trade of the
frozen example position. -/
theorem repair_trade_zeroes_original_witness :
    ((Repair.repair_trade Repair.c4_portfolio Repair.c4_failed_trade 50).map
        (fun r =>
        (r.2.position_id, r.2.planned_quantity, r.2.planned_price,
         r.2.trade_type, r.2.get_status, r.2.executed_quantity,
         r.2.executed_reserve, r.2.lp_fees_paid, r.2.get_value,
         r.2.get_position_quantity, r.2.repaired_trade_id)) =
      Except.ok (Repair.c4_failed_trade.position_id,
        -Repair.c4_failed_trade.planned_quantity,
        Repair.c4_failed_trade.planned_price,
        Repair.TradeType.repair, Repair.TradeStatus.success, 0, 0, 0, 0, 0,
        some Repair.c4_failed_trade.trade_id)) ∧
    ({ Repair.c4_failed_trade with repaired_at := some 50 } :
        Repair.TradeExecution).get_status = Repair.TradeStatus.repaired ∧
    ({ Repair.c4_failed_trade with repaired_at := some 50 } :
        Repair.TradeExecution).get_value = 0 ∧
    ({ Repair.c4_failed_trade with repaired_at := some 50 } :
        Repair.TradeExecution).get_position_quantity = 0 ∧
    (∀ pf2 c, Repair.repair_trade Repair.c4_portfolio Repair.c4_failed_trade
        50 = Except.ok (pf2, c) →
      ∀ q ∈ pf2.open_and_frozen,
        q.position_id = Repair.c4_failed_trade.position_id →
      ∀ u ∈ q.trades, u.trade_id = Repair.c4_failed_trade.trade_id →
        u.get_status = Repair.TradeStatus.repaired ∨ u = c) := by
  exact repair_trade_zeroes_original Repair.c4_portfolio Repair.c4_position
    Repair.c4_failed_trade 50 rfl (by norm_num [Repair.c4_failed_trade])

end TradeExec

namespace TradeExec

/-- C6: accruing an asset whose supplied on-chain balance implies a
non-positive delta, or a relative gain above `max_interest_gain`, raises
the corresponding assertion before any distribution happens: the call
returns the error with the state unchanged, so no balance update is
applied and the bad delta is never clamped. -/
theorem accrue_interest_tripwire_raises
    (st : InterestSync.IState)
    (op : InterestSync.InterestDistributionOperation)
    (a : AssetIdentifier) (new_amount max_interest_gain : ℚ)
    (ts : Nat) (bn : Option Nat)
    (htot : 0 < InterestSync.counterGet op.totals a) :
    (new_amount - InterestSync.counterGet op.totals a ≤ 0 →
      InterestSync.accrue_interest st [(a, new_amount)] op ts bn
          max_interest_gain =
        Except.error ("Interest cannot go negative", st)) ∧
    (0 < new_amount - InterestSync.counterGet op.totals a →
      max_interest_gain <
        |(new_amount - InterestSync.counterGet op.totals a) /
          InterestSync.counterGet op.totals a| →
      InterestSync.accrue_interest st [(a, new_amount)] op ts bn
          max_interest_gain =
        Except.error ("Interest gain tripwired", st)) := by
  constructor
  · intro h
    simp [InterestSync.accrue_interest, InterestSync.accrue_interest_assets,
      InterestSync.InterestDistributionOperation.accrue_interest_for_asset, h]
  · intro h1 h2
    simp [InterestSync.accrue_interest, InterestSync.accrue_interest_assets,
      InterestSync.InterestDistributionOperation.accrue_interest_for_asset,
      not_le.mpr h1, h2]

/-- Witness for the C6 theorem: with a prior total of two, a supplied
balance of one (delta minus one) raises the negativity assertion and a
supplied balance of three (relative gain one half above the five percent
threshold) raises the gain tripwire, both with the state untouched. -/
theorem accrue_interest_tripwire_raises_witness :
    InterestSync.accrue_interest InterestSync.c6_state [(ausdc, 1)]
        InterestSync.c6_op 5 none (5 / 100) =
      Except.error ("Interest cannot go negative", InterestSync.c6_state) ∧
    InterestSync.accrue_interest InterestSync.c6_state [(ausdc, 3)]
        InterestSync.c6_op 5 none (5 / 100) =
      Except.error ("Interest gain tripwired", InterestSync.c6_state) := by
  constructor
  · exact (accrue_interest_tripwire_raises InterestSync.c6_state
      InterestSync.c6_op ausdc 1 (5 / 100) 5 none
      (by norm_num [InterestSync.counterGet, InterestSync.c6_op,
        List.find?])).1
      (by norm_num [InterestSync.counterGet, InterestSync.c6_op, List.find?])
  · exact (accrue_interest_tripwire_raises InterestSync.c6_state
      InterestSync.c6_op ausdc 3 (5 / 100) 5 none
      (by norm_num [InterestSync.counterGet, InterestSync.c6_op,
        List.find?])).2
      (by norm_num [InterestSync.counterGet, InterestSync.c6_op, List.find?])
      (by norm_num [InterestSync.counterGet, InterestSync.c6_op, List.find?,
        abs_of_nonneg (show (0 : ℚ) ≤ 1 / 2 by norm_num)])

end TradeExec

namespace TradeExec.InterestSync

/-- Helper: reading a Counter whose head entry carries the key. -/
theorem counterGet_cons_pos (kv : AssetIdentifier × ℚ)
    (l : List (AssetIdentifier × ℚ)) (b : AssetIdentifier)
    (h : kv.1 = b) : counterGet (kv :: l) b = kv.2 := by
  unfold counterGet
  rw [List.find?_cons_of_pos _ (by simpa using h)]

/-- Helper: reading a Counter whose head entry carries another key. -/
theorem counterGet_cons_neg (kv : AssetIdentifier × ℚ)
    (l : List (AssetIdentifier × ℚ)) (b : AssetIdentifier)
    (h : ¬kv.1 = b) : counterGet (kv :: l) b = counterGet l b := by
  unfold counterGet
  rw [List.find?_cons_of_neg _ (by simpa using h)]

/-- Helper: a key different from the incremented one reads the same value
after the map side of a Counter increment. -/
theorem counterGet_map_ne (l : List (AssetIdentifier × ℚ))
    (a b : AssetIdentifier) (q : ℚ) (hne : b ≠ a) :
    counterGet (l.map (fun kv => if kv.1 = a then (kv.1, kv.2 + q) else kv))
      b = counterGet l b := by
  induction l with
  | nil => simp [counterGet]
  | cons kv l ih =>
    rw [List.map_cons]
    have hkey : (if kv.1 = a then (kv.1, kv.2 + q) else kv).1 = kv.1 := by
      by_cases hka : kv.1 = a <;> simp [hka]
    by_cases hkb : kv.1 = b
    · have hka : ¬kv.1 = a := by rw [hkb]; exact hne
      rw [counterGet_cons_pos _ _ _ (by rw [hkey]; exact hkb),
        counterGet_cons_pos _ _ _ hkb, if_neg hka]
    · rw [counterGet_cons_neg _ _ _ (by rw [hkey]; exact hkb),
        counterGet_cons_neg _ _ _ hkb]
      exact ih

/-- Helper: the incremented key reads its old value plus the increment when
it is present in the Counter. -/
theorem counterGet_map_eq (l : List (AssetIdentifier × ℚ))
    (a : AssetIdentifier) (q : ℚ)
    (hmem : (l.find? (fun kv => kv.1 = a)).isSome = true) :
    counterGet (l.map (fun kv => if kv.1 = a then (kv.1, kv.2 + q) else kv))
      a = counterGet l a + q := by
  induction l with
  | nil => simp [List.find?] at hmem
  | cons kv l ih =>
    rw [List.map_cons]
    have hkey : (if kv.1 = a then (kv.1, kv.2 + q) else kv).1 = kv.1 := by
      by_cases hka : kv.1 = a <;> simp [hka]
    by_cases hk : kv.1 = a
    · rw [counterGet_cons_pos _ _ _ (by rw [hkey]; exact hk),
        counterGet_cons_pos _ _ _ hk, if_pos hk]
    · rw [counterGet_cons_neg _ _ _ (by rw [hkey]; exact hk),
        counterGet_cons_neg _ _ _ hk]
      apply ih
      rw [List.find?_cons_of_neg _ (by simpa using hk)] at hmem
      exact hmem

/-- Helper: a missing key reads zero from the Counter. -/
theorem counterGet_of_find_none (l : List (AssetIdentifier × ℚ))
    (a : AssetIdentifier) (h : l.find? (fun kv => kv.1 = a) = none) :
    counterGet l a = 0 := by
  simp [counterGet, h]

/-- Helper: looking up a Counter extended with a fresh trailing entry. -/
theorem counterGet_append_single (l : List (AssetIdentifier × ℚ))
    (a b : AssetIdentifier) (q : ℚ) :
    counterGet (l ++ [(a, q)]) b =
      if (l.find? (fun kv => kv.1 = b)).isSome then counterGet l b
      else if b = a then q else 0 := by
  induction l with
  | nil =>
    by_cases hba : b = a
    · rw [List.nil_append, counterGet_cons_pos _ _ _ hba.symm]
      simp [List.find?, hba]
    · rw [List.nil_append,
        counterGet_cons_neg _ _ _ (fun h => hba h.symm)]
      simp [List.find?, counterGet, hba]
  | cons kv l ih =>
    by_cases hk : kv.1 = b
    · rw [List.cons_append, counterGet_cons_pos _ _ _ hk,
        List.find?_cons_of_pos _ (by simpa using hk),
        if_pos (by simp), counterGet_cons_pos _ _ _ hk]
    · rw [List.cons_append, counterGet_cons_neg _ _ _ hk,
        List.find?_cons_of_neg _ (by simpa using hk),
        counterGet_cons_neg _ _ _ hk]
      exact ih

/-- Helper: reading a Counter after `counterAdd` — the incremented key
gains the increment, all other keys are unchanged. -/
theorem counterGet_counterAdd (l : List (AssetIdentifier × ℚ))
    (a b : AssetIdentifier) (q : ℚ) :
    counterGet (counterAdd l a q) b =
      counterGet l b + (if b = a then q else 0) := by
  unfold counterAdd
  by_cases hany : (l.any (fun kv => kv.1 = a)) = true
  · rw [if_pos hany]
    by_cases hb : b = a
    · subst hb
      have hfind : (l.find? (fun kv => kv.1 = b)).isSome = true := by
        rcases List.any_eq_true.mp hany with ⟨kv, hkv, hpb⟩
        exact List.find?_isSome.mpr ⟨kv, hkv, hpb⟩
      rw [counterGet_map_eq l b q hfind, if_pos rfl]
    · rw [counterGet_map_ne l a b q hb, if_neg hb, add_zero]
  · rw [if_neg hany]
    have hnone : l.find? (fun kv => kv.1 = a) = none := by
      rcases hf : l.find? (fun kv => kv.1 = a) with _ | kv
      · exact hf
      · exact absurd
          (List.any_eq_true.mpr
            ⟨kv, List.mem_of_find?_eq_some hf, List.find?_some hf⟩)
          hany
    rw [counterGet_append_single]
    by_cases hb : b = a
    · subst hb
      rw [hnone]
      simp [counterGet_of_find_none l b hnone]
    · by_cases hf : (l.find? (fun kv => kv.1 = b)).isSome = true
      · simp [hf, hb]
      · have hbnone : l.find? (fun kv => kv.1 = b) = none := by
          rcases hq : l.find? (fun kv => kv.1 = b) with _ | kv
          · exact hq
          · rw [hq] at hf; simp at hf
        simp [hbnone, hb, counterGet_of_find_none l b hbnone]

/-- Helper: the quantity sum over an asset after appending one entry. -/
theorem quantity_sum_append (l : List InterestDistributionEntry)
    (e : InterestDistributionEntry) (a : AssetIdentifier) :
    quantity_sum (l ++ [e]) a =
      quantity_sum l a + (if e.asset = a then e.quantity else 0) := by
  by_cases h : e.asset = a
  · simp [quantity_sum, List.filter_append, h]
  · simp [quantity_sum, List.filter_append, h]

/-- Helper: the tracked side returned by `get_tracked_asset` tracks the
requested asset. -/
theorem get_tracked_asset_asset (loan : Loan) (a : AssetIdentifier)
    (side : LoanSide) (tr : AssetWithTrackedValue)
    (h : loan.get_tracked_asset a = some (side, tr)) : tr.asset = a := by
  unfold Loan.get_tracked_asset at h
  split at h
  · rename_i hc
    simp only [Option.some.injEq, Prod.mk.injEq] at h
    rw [← h.2]
    exact hc
  · split at h
    · rename_i b
      split at h
      · rename_i hba
        simp only [Option.some.injEq, Prod.mk.injEq] at h
        rw [← h.2]
        exact hba
      · simp at h
    · simp at h

end TradeExec.InterestSync

namespace TradeExec.InterestSync

/-- Helper: the quantity sum over an asset, head step. -/
theorem quantity_sum_cons (e : InterestDistributionEntry)
    (l : List InterestDistributionEntry) (a : AssetIdentifier) :
    quantity_sum (e :: l) a =
      (if e.asset = a then e.quantity else 0) + quantity_sum l a := by
  by_cases h : e.asset = a
  · simp [quantity_sum, h]
  · simp [quantity_sum, h]

/-- Helper: the quantity sum is nonnegative when every entry quantity
is. -/
theorem quantity_sum_nonneg (l : List InterestDistributionEntry)
    (a : AssetIdentifier) (h1 : ∀ e ∈ l, 0 ≤ e.quantity) :
    0 ≤ quantity_sum l a := by
  induction l with
  | nil => simp [quantity_sum]
  | cons e l ih =>
    rw [quantity_sum_cons]
    have hrest := ih (fun e he => h1 e (List.mem_cons_of_mem _ he))
    by_cases he : e.asset = a
    · rw [if_pos he]
      exact add_nonneg (h1 e (List.mem_cons_self e l)) hrest
    · rw [if_neg he, zero_add]
      exact hrest

/-- Helper: the quantity sum is strictly positive when every entry quantity
is positive and some entry carries the asset. -/
theorem quantity_sum_pos (l : List InterestDistributionEntry)
    (a : AssetIdentifier) (h1 : ∀ e ∈ l, 0 < e.quantity)
    (hex : ∃ e ∈ l, e.asset = a) : 0 < quantity_sum l a := by
  induction l with
  | nil => simp at hex
  | cons e l ih =>
    rw [quantity_sum_cons]
    have hrest := quantity_sum_nonneg l a
      (fun e he => le_of_lt (h1 e (List.mem_cons_of_mem _ he)))
    by_cases he : e.asset = a
    · rw [if_pos he]
      exact add_pos_of_pos_of_nonneg (h1 e (List.mem_cons_self e l)) hrest
    · rw [if_neg he, zero_add]
      obtain ⟨e0, he0mem, he0⟩ := hex
      rcases List.mem_cons.mp he0mem with he0e | he0mem
      · subst he0e; exact absurd he0 he
      · exact ih (fun e he => h1 e (List.mem_cons_of_mem _ he)) ⟨e0, he0mem, he0⟩

/-- Helper: the weight sum over an asset, head step. -/
theorem weight_sum_cons (e : InterestDistributionEntry)
    (l : List InterestDistributionEntry) (a : AssetIdentifier) :
    weight_sum (e :: l) a =
      (if e.asset = a then e.weight.getD 0 else 0) + weight_sum l a := by
  by_cases h : e.asset = a
  · simp [weight_sum, h]
  · simp [weight_sum, h]

/-- Helper: assigning every entry the weight quantity-over-total turns the
weight sum for an asset into the quantity sum divided by the total. -/
theorem weight_sum_map_assign (l : List InterestDistributionEntry)
    (totals : List (AssetIdentifier × ℚ)) (a : AssetIdentifier) :
    weight_sum (l.map (fun e =>
        { e with weight := some (e.quantity / counterGet totals e.asset) }))
      a = quantity_sum l a / counterGet totals a := by
  induction l with
  | nil => simp [weight_sum, quantity_sum]
  | cons e l ih =>
    rw [List.map_cons, weight_sum_cons, quantity_sum_cons, ih]
    simp only [InterestDistributionEntry.asset,
      InterestDistributionEntry.quantity]
    by_cases he : e.tracker.asset = a
    · simp [he, div_add_div_same]
    · simp [he]

end TradeExec.InterestSync

namespace TradeExec.InterestSync

/-- Helper: one leg of the position scan preserves the scan invariants —
entries keep strictly positive quantities, the Counter of totals equals
the per-asset quantity sums, and every recorded asset is carried by some
entry. -/
theorem process_leg_inv (pm : Nat → TradingPairIdentifier → ℚ → ℚ)
    (ts : Nat) (acc : PrepAcc) (p : TradingPosition) (a : AssetIdentifier)
    (acc2 : PrepAcc) (h : process_leg pm ts acc p a = Except.ok acc2)
    (h1 : ∀ e ∈ acc.entries, 0 < e.quantity)
    (h2 : ∀ x, counterGet acc.totals x = quantity_sum acc.entries x)
    (h3 : ∀ x ∈ acc.assets, ∃ e ∈ acc.entries, e.asset = x) :
    (∀ e ∈ acc2.entries, 0 < e.quantity) ∧
    (∀ x, counterGet acc2.totals x = quantity_sum acc2.entries x) ∧
    (∀ x ∈ acc2.assets, ∃ e ∈ acc2.entries, e.asset = x) := by
  simp only [process_leg] at h
  split at h
  · rw [Except.ok.injEq] at h
    subst h
    exact ⟨h1, h2, h3⟩
  · split at h
    · exact absurd h (by simp)
    · rename_i loan hloan
      split at h
      · exact absurd h (by simp)
      · rename_i pr side tracker htr
        split at h
        · exact absurd h (by simp)
        · rename_i price hprice
          split at h
          · exact absurd h (by simp)
          · rename_i hqle
            rw [Except.ok.injEq] at h
            subst h
            have htra : tracker.asset = a :=
              get_tracked_asset_asset loan a side tracker htr
            have hqpos : 0 < tracker.quantity := by
              simp only [InterestDistributionEntry.quantity] at hqle
              exact lt_of_not_le (by simpa using hqle)
            refine ⟨?_, ?_, ?_⟩
            · intro e he
              rcases List.mem_append.mp he with he | he
              · exact h1 e he
              · rw [List.mem_singleton] at he
                subst he
                simpa [InterestDistributionEntry.quantity] using hqpos
            · intro x
              rw [counterGet_counterAdd, quantity_sum_append, h2 x]
              simp only [InterestDistributionEntry.asset,
                InterestDistributionEntry.quantity]
              by_cases hx : x = a
              · simp [hx, htra]
              · have : ¬tracker.asset = x := by
                  rw [htra]; exact fun hc => hx hc.symm
                simp [hx, this]
            · intro x hx
              by_cases hc : acc.assets.contains a
              · rw [if_pos hc] at hx
                obtain ⟨e, hemem, hea⟩ := h3 x hx
                exact ⟨e, List.mem_append_left _ hemem, hea⟩
              · rw [if_neg hc] at hx
                rcases List.mem_append.mp hx with hx | hx
                · obtain ⟨e, hemem, hea⟩ := h3 x hx
                  exact ⟨e, List.mem_append_left _ hemem, hea⟩
                · rw [List.mem_singleton] at hx
                  subst hx
                  refine ⟨_, List.mem_append_right _ (List.mem_singleton.mpr
                    rfl), ?_⟩
                  simpa [InterestDistributionEntry.asset] using htra

/-- Helper: one position of the scan (both pair sides) preserves the scan
invariants. -/
theorem process_position_inv (pm : Nat → TradingPairIdentifier → ℚ → ℚ)
    (ts : Nat) (acc : PrepAcc) (p : TradingPosition) (acc2 : PrepAcc)
    (h : process_position pm ts acc p = Except.ok acc2)
    (h1 : ∀ e ∈ acc.entries, 0 < e.quantity)
    (h2 : ∀ x, counterGet acc.totals x = quantity_sum acc.entries x)
    (h3 : ∀ x ∈ acc.assets, ∃ e ∈ acc.entries, e.asset = x) :
    (∀ e ∈ acc2.entries, 0 < e.quantity) ∧
    (∀ x, counterGet acc2.totals x = quantity_sum acc2.entries x) ∧
    (∀ x ∈ acc2.assets, ∃ e ∈ acc2.entries, e.asset = x) := by
  simp only [process_position] at h
  split at h
  · exact absurd h (by simp)
  · rename_i accmid hbase
    obtain ⟨g1, g2, g3⟩ := process_leg_inv pm ts acc p p.pair.base accmid
      hbase h1 h2 h3
    exact process_leg_inv pm ts accmid p p.pair.quote acc2 h g1 g2 g3

/-- Helper: the whole position scan preserves the scan invariants. -/
theorem process_positions_inv (pm : Nat → TradingPairIdentifier → ℚ → ℚ)
    (ts : Nat) (ps : List TradingPosition) (acc : PrepAcc) (acc2 : PrepAcc)
    (h : process_positions pm ts acc ps = Except.ok acc2)
    (h1 : ∀ e ∈ acc.entries, 0 < e.quantity)
    (h2 : ∀ x, counterGet acc.totals x = quantity_sum acc.entries x)
    (h3 : ∀ x ∈ acc.assets, ∃ e ∈ acc.entries, e.asset = x) :
    (∀ e ∈ acc2.entries, 0 < e.quantity) ∧
    (∀ x, counterGet acc2.totals x = quantity_sum acc2.entries x) ∧
    (∀ x ∈ acc2.assets, ∃ e ∈ acc2.entries, e.asset = x) := by
  induction ps generalizing acc with
  | nil =>
    simp only [process_positions] at h
    rw [Except.ok.injEq] at h
    subst h
    exact ⟨h1, h2, h3⟩
  | cons p ps ih =>
    simp only [process_positions] at h
    split at h
    · exact absurd h (by simp)
    · rename_i accmid hpos
      obtain ⟨g1, g2, g3⟩ := process_position_inv pm ts acc p accmid hpos
        h1 h2 h3
      exact ih accmid h g1 g2 g3

end TradeExec.InterestSync

namespace TradeExec

/-- C8: for every distribution built by `prepare_interest_distribution`
over open and frozen positions holding interest-accruing assets with
strictly positive tracked quantities, and for each asset of the
distribution, every entry of that asset carries the weight
quantity-over-asset-total, and those weights sum to exactly one. -/
theorem interest_weights_sum_to_one
    (ts : Nat) (pf : InterestSync.IPortfolio)
    (pm : Nat → TradingPairIdentifier → ℚ → ℚ)
    (op : InterestSync.InterestDistributionOperation) (a : AssetIdentifier)
    (hprep : InterestSync.prepare_interest_distribution ts pf pm =
      Except.ok op)
    (ha : a ∈ op.assets) :
    (∀ e ∈ op.entries, e.asset = a →
      e.weight = some (e.quantity / InterestSync.counterGet op.totals a)) ∧
    InterestSync.weight_sum op.entries a = 1 := by
  simp only [InterestSync.prepare_interest_distribution] at hprep
  split at hprep
  · exact absurd hprep (by simp)
  · rename_i acc hacc
    rw [Except.ok.injEq] at hprep
    subst hprep
    obtain ⟨h1, h2, h3⟩ := InterestSync.process_positions_inv pm ts
      pf.get_open_and_frozen_positions {} acc hacc
      (by simp) (by simp [InterestSync.counterGet, InterestSync.quantity_sum])
      (by simp)
    have hT : 0 < InterestSync.counterGet acc.totals a := by
      rw [h2 a]
      exact InterestSync.quantity_sum_pos acc.entries a h1 (h3 a ha)
    constructor
    · intro e hemem hea
      obtain ⟨e0, he0mem, he0⟩ := List.mem_map.mp hemem
      subst he0
      simp only [InterestSync.InterestDistributionEntry.asset,
        InterestSync.InterestDistributionEntry.quantity] at hea ⊢
      rw [hea]
    · have hws := InterestSync.weight_sum_map_assign acc.entries acc.totals a
      rw [← h2 a, div_self (ne_of_gt hT)] at hws
      exact hws

/-- Witness for the C8 theorem: two credit-supply positions tracking three
and one aUSDC produce weights three-quarters and one-quarter, and their
weight sum is one. -/
theorem interest_weights_sum_to_one_witness :
    (∀ e ∈ InterestSync.c8_op.entries, e.asset = ausdc →
      e.weight = some (e.quantity /
        InterestSync.counterGet InterestSync.c8_op.totals ausdc)) ∧
    InterestSync.weight_sum InterestSync.c8_op.entries ausdc = 1 := by
  exact interest_weights_sum_to_one 9 InterestSync.c8_portfolio
    (fun _ _ q => q) InterestSync.c8_op ausdc
    (by
      simp [InterestSync.prepare_interest_distribution,
        InterestSync.process_positions, InterestSync.process_position,
        InterestSync.process_leg,
        InterestSync.IPortfolio.get_open_and_frozen_positions,
        InterestSync.Loan.get_tracked_asset,
        InterestSync.TradingPosition.is_long,
        InterestSync.InterestDistributionEntry.asset,
        InterestSync.InterestDistributionEntry.quantity,
        InterestSync.counterAdd, InterestSync.counterGet,
        AssetIdentifier.is_interest_accruing,
        InterestSync.c8_portfolio, InterestSync.c8_op, InterestSync.c1_pair,
        ausdc, usdc, List.find?, List.filter, List.any, List.contains]
      norm_num)
    (by simp [InterestSync.c8_op])

end TradeExec
